import Mathlib

/-!
Verification development for the timeout-aware socket I/O layer in
`vm/src/stdlib/socket.rs` (RustPython's `_socket` module).

The Rust code is shallowly embedded: pure logic becomes Lean functions, the
stateful retry loop of `sock_op_timeout_err` becomes a recursion over an
explicit list of per-iteration oracle events (poll outcomes, syscall attempt
outcomes, signal-check outcomes, and clock readings), and fallible code
returns `Except`.  Monotonic time and timeout values are modelled by
integers (think nanoseconds: Rust `Instant` and `Duration` are discrete at
nanosecond resolution, and the f64 timeout enters the logic only through
sign tests and a conversion to `Duration`); only order comparisons,
addition and subtraction of these values occur in the source.  Running out
of oracle events models a loop that has not yet terminated and is reported
as `none`.
-/

namespace Socket

/-- Kind classification of a Rust `std::io::Error`, restricted to the kinds
the socket module branches on. -/
inductive IoErrorKind where
  | interrupted
  | wouldBlock
  | otherKind
deriving DecidableEq, Repr

/-- Model of a Rust `std::io::Error`: its kind plus `raw_os_error()`. -/
structure IoError where
  kind : IoErrorKind
  code : Option Int
deriving DecidableEq, Repr

/-- Model of the kinds of Python-level errors raised by the address codec. -/
inductive PyErrKind where
  | typeError
  | overflowError
  | osError
  | valueError
  | unreachableReached
deriving DecidableEq, Repr

/-- A Python-level error from address handling: kind plus message. -/
structure AddrErr where
  kind : PyErrKind
  msg : String
deriving DecidableEq, Repr

/-- Model of an arbitrary Python exception object (`PyBaseExceptionRef`).
Address errors are structured; exceptions surfaced by the cooperative
signal check `vm.check_signals()` are opaque tokens. -/
inductive PyExc where
  | addrExc (e : AddrErr)
  | signalExc (n : Nat)
deriving DecidableEq, Repr

/-- Model of the `IoOrPyException` enum of the source: the dedicated timeout
outcome, a Python exception, or a raw I/O error. -/
inductive IoOrPyException where
  | Timeout
  | Py (exc : PyExc)
  | Io (err : IoError)
deriving DecidableEq, Repr

/-- The `SelectKind` enum of the source. -/
inductive SelectKind where
  | read
  | write
  | connect
deriving DecidableEq, Repr

/-- Poll interest flags (unix `poll` events used by `sock_select`). -/
inductive PollEvent where
  | pollin
  | pollout
  | pollerr
deriving DecidableEq, Repr

/-- The event set `sock_select` registers for each `SelectKind` (the unix
branch of `sock_select`; the windows branch fills the matching fd sets). -/
def pollInterest : SelectKind → List PollEvent
  | .read => [.pollin]
  | .write => [.pollout]
  | .connect => [.pollout, .pollerr]

/-- Linux `errno` codes used by the module (`errcode!` on the unix path). -/
def EINPROGRESS : Int := 115

/-- Linux `EISCONN`. -/
def EISCONN : Int := 106

/-- Linux `ECONNRESET`. -/
def ECONNRESET : Int := 104

/-- Linux `EWOULDBLOCK`. -/
def EWOULDBLOCK : Int := 11

/-- Linux address family constants. -/
def AF_UNSPEC : Int := 0

/-- Linux `AF_UNIX`. -/
def AF_UNIX : Int := 1

/-- Linux `AF_INET`. -/
def AF_INET : Int := 2

/-- Linux `AF_INET6`. -/
def AF_INET6 : Int := 10

/-- `PySocket::get_timeout`: `Ok(duration)` when the stored timeout is
positive, otherwise `Err(blocking)` where `blocking` is true unless the
stored timeout is exactly zero. -/
def get_timeout (timeout : ℤ) : Except Bool ℤ :=
  if 0 < timeout then .ok timeout else .error (decide (timeout ≠ 0))

/-- The `.ok()` view of `get_timeout` used by `sock_op_err` and `sendall`. -/
def exceptOk {ε α : Type} : Except ε α → Option α
  | .ok a => some a
  | .error _ => none

instance exceptDecEq {ε α : Type} [DecidableEq ε] [DecidableEq α] :
    DecidableEq (Except ε α) := fun x y =>
  match x, y with
  | .ok a, .ok b =>
    if h : a = b then isTrue (by rw [h]) else isFalse (by intro hc; cases hc; exact h rfl)
  | .error a, .error b =>
    if h : a = b then isTrue (by rw [h]) else isFalse (by intro hc; cases hc; exact h rfl)
  | .ok _, .error _ => isFalse (by intro hc; cases hc)
  | .error _, .ok _ => isFalse (by intro hc; cases hc)

/-- `Deadline::time_until`: remaining time, or the timeout outcome once the
clock has passed the deadline (`checked_duration_since` is `None` exactly
when `now` is strictly past the deadline). -/
def timeUntil (deadline now : ℤ) : Except IoOrPyException ℤ :=
  if now ≤ deadline then .ok (deadline - now) else .error .Timeout

/-- Oracle events for one iteration of the outer loop of
`sock_op_timeout_err`: the clock reading taken by `time_until`, the result
of `sock_select`, the result of `check_signals` should the poll be
interrupted, and the results of the repeated syscall attempts with the
results of `check_signals` at each interrupted attempt. -/
structure OuterIter (R : Type) where
  now : ℤ
  pollResult : Except IoError Bool
  pollSignal : Option PyExc
  attempts : List (Except IoError R)
  attemptSignals : List (Option PyExc)
deriving DecidableEq, Repr

/-- Outcome of the inner attempt loop of `sock_op_timeout_err`. -/
inductive AttemptOutcome (R : Type) where
  | okR (r : R)
  | ioErr (e : IoError)
  | pyErr (e : PyExc)
  | noFuel
deriving DecidableEq, Repr

/-- The inner loop of `sock_op_timeout_err`: call the operation, retrying on
interruption after a signal check, and break out with the first
non-interrupted error. -/
def attemptLoop {R : Type} : List (Except IoError R) → List (Option PyExc) → AttemptOutcome R
  | [], _ => .noFuel
  | .ok r :: _, _ => .okR r
  | .error e :: rest, sigs =>
    if e.kind = .interrupted then
      match sigs with
      | [] => .noFuel
      | none :: sigs2 => attemptLoop rest sigs2
      | some exc :: _ => .pyErr exc
    else .ioErr e

/-- One transition of the outer loop of `sock_op_timeout_err`. -/
inductive StepOut (R : Type) where
  | done (r : Except IoOrPyException R)
  | again
  | noFuel
deriving DecidableEq, Repr

/-- The attempt phase of one outer iteration: run the inner attempt loop,
then retry the whole outer loop on `WouldBlock` when a timeout is set, and
otherwise propagate. -/
def attemptPhase {R : Type} (timeout : Option ℤ) (it : OuterIter R) : StepOut R :=
  match attemptLoop it.attempts it.attemptSignals with
  | .okR r => .done (.ok r)
  | .pyErr e => .done (.error (.Py e))
  | .noFuel => .noFuel
  | .ioErr e =>
    if timeout.isSome ∧ e.kind = .wouldBlock then .again
    else .done (.error (.Io e))

/-- One full iteration of the outer loop of `sock_op_timeout_err`: when a
deadline is present or the select kind is `Connect`, compute the remaining
time (failing with the timeout outcome once expired) and poll; a poll that
reports no readiness in time yields the timeout outcome, an interrupted poll
re-enters the loop after a signal check, a poll failure propagates, and
readiness falls through to the attempt phase. -/
def engineStep {R : Type} (select : SelectKind) (timeout deadline : Option ℤ)
    (it : OuterIter R) : StepOut R :=
  if deadline.isSome ∨ select = .connect then
    let interval : Except IoOrPyException (Option ℤ) :=
      match deadline with
      | some d => (timeUntil d it.now).map some
      | none => .ok none
    match interval with
    | .error e => .done (.error e)
    | .ok _ =>
      match it.pollResult with
      | .ok true => .done (.error .Timeout)
      | .error e =>
        if e.kind = .interrupted then
          match it.pollSignal with
          | some exc => .done (.error (.Py exc))
          | none => .again
        else .done (.error (.Io e))
      | .ok false => attemptPhase timeout it
  else attemptPhase timeout it

/-- The outer loop of `sock_op_timeout_err`, driven by the oracle list. -/
def engineRun {R : Type} (select : SelectKind) (timeout deadline : Option ℤ) :
    List (OuterIter R) → Option (Except IoOrPyException R)
  | [] => none
  | it :: rest =>
    match engineStep select timeout deadline it with
    | .done r => some r
    | .noFuel => none
    | .again => engineRun select timeout deadline rest

/-- `PySocket::sock_op_timeout_err`: fix the deadline as now plus the
requested timeout, then run the outer loop. -/
def sock_op_timeout_err {R : Type} (select : SelectKind) (timeout : Option ℤ)
    (start : ℤ) (iters : List (OuterIter R)) : Option (Except IoOrPyException R) :=
  engineRun select timeout (timeout.map (fun t => start + t)) iters

/-- `PySocket::sock_op_err`: derive the timeout bound from the stored
timeout value via `get_timeout().ok()`. -/
def sock_op_err {R : Type} (storedTimeout : ℤ) (select : SelectKind)
    (start : ℤ) (iters : List (OuterIter R)) : Option (Except IoOrPyException R) :=
  sock_op_timeout_err select (exceptOk (get_timeout storedTimeout)) start iters

/-! ## Socket handle state: timeout and the OS non-blocking flag -/

/-- The timeout-relevant state of a `PySocket`: the stored timeout value and
the OS-level non-blocking flag of its descriptor.  `set_nonblocking` is
modelled as succeeding; on failure the source propagates an OS error after
having already stored the timeout. -/
structure SockState where
  timeout : ℤ
  nonblocking : Bool
deriving DecidableEq, Repr

/-- `PySocket::init_inner`: store the process-wide default timeout and, only
when it is nonnegative, switch the descriptor to non-blocking mode; a
negative default leaves the flag of the adopted descriptor untouched. -/
def init_inner (defaultTimeout : ℤ) (s : SockState) : SockState :=
  { timeout := defaultTimeout,
    nonblocking := if 0 ≤ defaultTimeout then true else s.nonblocking }

/-- `PySocket::setblocking`: store `-1` or `0` and set the non-blocking
flag to the negation of the argument. -/
def setblocking (block : Bool) (_s : SockState) : SockState :=
  { timeout := if block then -1 else 0, nonblocking := !block }

/-- `PySocket::settimeout`: store the supplied duration (or `-1` when none
is supplied) and set the non-blocking flag exactly when a value is
supplied. -/
def settimeout (t : Option ℤ) (_s : SockState) : SockState :=
  { timeout := (t.map (fun d => d)).getD (-1), nonblocking := t.isSome }

/-- `PySocket::gettimeout`: the stored value when nonnegative, else none. -/
def gettimeout (s : SockState) : Option ℤ :=
  if 0 ≤ s.timeout then some s.timeout else none

/-- `PySocket::getblocking`: true exactly when the stored timeout is not
zero. -/
def getblocking (s : SockState) : Bool :=
  decide (s.timeout ≠ 0)

/-! ## Close and detach -/

/-- The invalid-descriptor sentinel (unix value). -/
def INVALID_SOCKET : Int := -1

/-- `PySocket::detach`: replace the stored descriptor by the invalid
sentinel and hand the previous descriptor out.  Returns the pair (new
stored descriptor, returned descriptor). -/
def detach (fd : Int) : Int × Int :=
  (INVALID_SOCKET, fd)

/-- `_socket_close`: run the OS `close`; a negative return with an errno
other than `ECONNRESET` is an error, and `ECONNRESET` is swallowed. -/
def _socket_close (ret errno : Int) : Except IoError Unit :=
  if ret < 0 then
    if errno ≠ ECONNRESET then .error ⟨.otherKind, some errno⟩ else .ok ()
  else .ok ()

/-- `PySocket::close`: detach, and only when the detached descriptor is not
the invalid sentinel run `_socket_close` on it.  `osClose` is the oracle
for the OS close call, giving (return value, errno). -/
def close (fd : Int) (osClose : Int → Int × Int) : Int × Except IoError Unit :=
  let d := detach fd
  if d.2 ≠ INVALID_SOCKET then
    let r := osClose d.2
    (d.1, _socket_close r.1 r.2)
  else (d.1, .ok ())

/-! ## Address codec

The host-language address values are modelled by `PyVal`; native socket
addresses by `NativeAddr`.  The numeric literal parsers and the address
formatters live in the Rust standard library (an external collaborator of
this module); they are modelled here as faithful Lean implementations of
the std parser grammar (strict dotted-quad decimal for IPv4, hex groups
with one optional double-colon gap and an optional trailing dotted quad for
IPv6) and the std `Display` output (decimal dotted quad; lowercase hex with
the first longest run of two or more zero groups compressed, and the
IPv4-mapped special case). -/

/-- Model of a Python value as far as the address codec inspects one. -/
inductive PyVal where
  | pyStr (s : String)
  | pyInt (n : Int)
  | pyTuple (xs : List PyVal)

/-- Numeric value of a decimal digit character. -/
def digitVal (c : Char) : ℕ := c.toNat - 48

/-- Decimal digit test (by code point, '0' to '9'). -/
def isDecDigit (c : Char) : Bool := decide (48 ≤ c.toNat ∧ c.toNat ≤ 57)

/-- Big-endian decimal value of a digit list, as the std parser accumulates
it. -/
def bigEndVal (cs : List Char) : ℕ :=
  cs.foldl (fun a c => 10 * a + digitVal c) 0

/-- One octet of a dotted-quad IPv4 literal, per the std parser: one to
three decimal digits, no zero prefix, value at most 255. -/
def parseOctet (cs : List Char) : Option ℕ :=
  if cs = [] then none
  else if ¬ cs.all isDecDigit then none
  else if 3 < cs.length then none
  else if 2 ≤ cs.length ∧ cs.head? = some '0' then none
  else
    let v := bigEndVal cs
    if v ≤ 255 then some v else none

/-- Split a character list on a separator character. -/
def splitOnChar (sep : Char) : List Char → List (List Char)
  | [] => [[]]
  | c :: rest =>
    let r := splitOnChar sep rest
    if c = sep then [] :: r
    else
      match r with
      | g :: gs => (c :: g) :: gs
      | [] => [[c]]

/-- Strict IPv4 literal parser (model of `Ipv4Addr::from_str`). -/
def parse4core (cs : List Char) : Option (ℕ × ℕ × ℕ × ℕ) :=
  match splitOnChar '.' cs with
  | [g1, g2, g3, g4] =>
    match parseOctet g1, parseOctet g2, parseOctet g3, parseOctet g4 with
    | some a, some b, some c, some d => some (a, b, c, d)
    | _, _, _, _ => none
  | _ => none

/-- Strict IPv4 literal parser on strings. -/
def parse4 (s : String) : Option (ℕ × ℕ × ℕ × ℕ) := parse4core s.toList

/-- Little-endian decimal digits of a natural number, with explicit fuel so
the definition is structural. -/
def decDigitsAux : ℕ → ℕ → List ℕ
  | 0, _ => []
  | fuel + 1, n => if n = 0 then [] else n % 10 :: decDigitsAux fuel (n / 10)

/-- The character of a decimal digit. -/
def decDigitChar (d : ℕ) : Char := Char.ofNat (48 + d)

/-- Decimal rendering of a natural number (model of the std `Display` for
integers as used by the IPv4 formatter). -/
def natDecChars (n : ℕ) : List Char :=
  if n = 0 then ['0'] else ((decDigitsAux n n).map decDigitChar).reverse

/-- Little-endian decimal value of a digit list: specification helper used
to reason about `bigEndVal` and `decDigitsAux`. -/
def ofDigs : List ℕ → ℕ
  | [] => 0
  | d :: ds => d + 10 * ofDigs ds

/-- Join character groups with a separator: specification helper, the
inverse of `splitOnChar`. -/
def joinSep (sep : Char) : List (List Char) → List Char
  | [] => []
  | [g] => g
  | g :: gs => g ++ sep :: joinSep sep gs

/-- Model of `Display` for `Ipv4Addr`: dotted-quad decimal. -/
def format4 (a b c d : ℕ) : List Char :=
  natDecChars a ++ '.' :: (natDecChars b ++ '.' :: (natDecChars c ++ '.' :: natDecChars d))

/-- Numeric value of a hexadecimal digit character, if any. -/
def hexVal (c : Char) : Option ℕ :=
  if 48 ≤ c.toNat ∧ c.toNat ≤ 57 then some (c.toNat - 48)
  else if 97 ≤ c.toNat ∧ c.toNat ≤ 102 then some (c.toNat - 87)
  else if 65 ≤ c.toNat ∧ c.toNat ≤ 70 then some (c.toNat - 55)
  else none

/-- One hex group of an IPv6 literal: one to four hex digits. -/
def parseHexGroup (cs : List Char) : Option ℕ :=
  if cs = [] ∨ 4 < cs.length then none
  else
    match cs.mapM hexVal with
    | none => none
    | some ds => some (ds.foldl (fun a d => 16 * a + d) 0)

/-- A trailing dotted-quad group of an IPv6 literal, contributing two
16-bit segments. -/
def ipv4Group (cs : List Char) : Option (ℕ × ℕ) :=
  (parse4core cs).map (fun p => (p.1 * 256 + p.2.1, p.2.2.1 * 256 + p.2.2.2))

/-- Parse a colon-separated group list where only the final group may be a
dotted quad, as the std IPv6 parser reads groups. -/
def parseTailGroups : List (List Char) → Option (List ℕ)
  | [] => some []
  | [g] =>
    match parseHexGroup g with
    | some v => some [v]
    | none => (ipv4Group g).map (fun p => [p.1, p.2])
  | g :: rest =>
    match parseHexGroup g, parseTailGroups rest with
    | some v, some vs => some (v :: vs)
    | _, _ => none

/-- Split at the first double colon, if present. -/
def splitDC : List Char → Option (List Char × List Char)
  | [] => none
  | ':' :: ':' :: rest => some ([], rest)
  | c :: rest => (splitDC rest).map (fun p => (c :: p.1, p.2))

/-- Model of `Ipv6Addr::from_str`: eight segments, either written in full
(with an optional trailing dotted quad) or with one double-colon gap
standing for the missing zero segments. -/
def parse6core (cs : List Char) : Option (List ℕ) :=
  match splitDC cs with
  | none =>
    match parseTailGroups (splitOnChar ':' cs) with
    | some segs => if segs.length = 8 then some segs else none
    | none => none
  | some (l, r) =>
    let headGs : Option (List ℕ) :=
      if l = [] then some [] else (splitOnChar ':' l).mapM parseHexGroup
    let tailGs : Option (List ℕ) :=
      if r = [] then some [] else parseTailGroups (splitOnChar ':' r)
    match headGs, tailGs with
    | some hs, some ts =>
      if hs.length + ts.length ≤ 7 then
        some (hs ++ List.replicate (8 - hs.length - ts.length) 0 ++ ts)
      else none
    | _, _ => none

/-- IPv6 literal parser on strings. -/
def parse6 (s : String) : Option (List ℕ) := parse6core s.toList

/-- Little-endian hexadecimal digits with explicit fuel. -/
def hexDigitsAux : ℕ → ℕ → List ℕ
  | 0, _ => []
  | fuel + 1, n => if n = 0 then [] else n % 16 :: hexDigitsAux fuel (n / 16)

/-- The character of a hexadecimal digit (lowercase). -/
def hexDigitChar (d : ℕ) : Char :=
  if d < 10 then Char.ofNat (48 + d) else Char.ofNat (87 + d)

/-- Lowercase hexadecimal rendering of a natural number. -/
def natHexChars (n : ℕ) : List Char :=
  if n = 0 then ['0'] else ((hexDigitsAux n n).map hexDigitChar).reverse

/-- First longest run of zero segments: auxiliary scan returning (start,
length); the best run is only replaced by a strictly longer one, so ties
keep the first. -/
def zeroRunAux : List ℕ → ℕ → ℕ → ℕ → ℕ → ℕ → ℕ × ℕ
  | [], _, curStart, curLen, bestStart, bestLen =>
    if bestLen < curLen then (curStart, curLen) else (bestStart, bestLen)
  | s :: rest, i, curStart, curLen, bestStart, bestLen =>
    if s = 0 then
      zeroRunAux rest (i + 1) (if curLen = 0 then i else curStart) (curLen + 1) bestStart bestLen
    else if bestLen < curLen then zeroRunAux rest (i + 1) 0 0 curStart curLen
    else zeroRunAux rest (i + 1) 0 0 bestStart bestLen

/-- First longest run of zero segments of a segment list. -/
def longestZeroRun (segs : List ℕ) : ℕ × ℕ :=
  zeroRunAux segs 0 0 0 0 0

/-- Join hex-rendered segments with colons. -/
def hexGroupsJoin (segs : List ℕ) : List Char :=
  List.intercalate [':'] (segs.map natHexChars)

/-- Model of `Display` for `Ipv6Addr`: the IPv4-mapped special case, else
compression of the first longest run of at least two zero segments. -/
def format6core (segs : List ℕ) : List Char :=
  match segs with
  | [0, 0, 0, 0, 0, 65535, g, h] =>
    (":" ++ ":ffff:").toList ++ format4 (g / 256) (g % 256) (h / 256) (h % 256)
  | _ =>
    let p := longestZeroRun segs
    if 2 ≤ p.2 then
      hexGroupsJoin (List.take p.1 segs) ++ ':' :: ':' :: hexGroupsJoin (List.drop (p.1 + p.2) segs)
    else hexGroupsJoin segs

/-- IPv6 formatter producing a string. -/
def format6 (segs : List ℕ) : String := String.mk (format6core segs)

/-- A parsed (host, port) pair, the `Address` struct of the source. -/
structure AddressHP where
  host : String
  port : ℕ
deriving DecidableEq, Repr

/-- Conversion of a Python value to a host string
(`PyStrRef::try_from_object`, an external collaborator of this module):
strings convert, everything else is a type error. -/
def pyStrFromObject : PyVal → Except AddrErr String
  | .pyStr s => .ok s
  | _ => .error ⟨.typeError, "a str is required"⟩

/-- Conversion of a Python value to an `i32`
(`i32::try_from_object`, external): in-range integers convert, out-of-range
integers overflow, everything else is a type error. -/
def i32FromObject : PyVal → Except AddrErr Int
  | .pyInt n =>
    if -2147483648 ≤ n ∧ n ≤ 2147483647 then .ok n
    else .error ⟨.overflowError, "Python int too large to convert"⟩
  | _ => .error ⟨.typeError, "an integer is required"⟩

/-- Conversion of a Python value to a `u32` (`u32::try_from_object`,
external). -/
def u32FromObject : PyVal → Except AddrErr ℕ
  | .pyInt n =>
    if 0 ≤ n ∧ n ≤ 4294967295 then .ok n.toNat
    else .error ⟨.overflowError, "Python int too large to convert"⟩
  | _ => .error ⟨.typeError, "an integer is required"⟩

/-- `Address::from_tuple`: host from element 0, port from element 1 as an
`i32` narrowed to `u16` with the dedicated overflow message.  Callers
guarantee at least two elements; the fallthrough mirrors the panic a short
tuple would cause. -/
def Address_from_tuple (tuple : List PyVal) : Except AddrErr AddressHP :=
  match tuple[0]?, tuple[1]? with
  | some h, some p => do
    let host ← pyStrFromObject h
    let port ← i32FromObject p
    if 0 ≤ port ∧ port ≤ 65535 then .ok ⟨host, port.toNat⟩
    else .error ⟨.overflowError, "port must be 0-65535."⟩
  | _, _ => .error ⟨.typeError, "Address tuple should have only 2 values"⟩

/-- `Address::from_tuple_ipv6`: parse host and port, then flow info and
scope id (each defaulting to 0 when absent), then reject flow info above
`0xfffff`. -/
def Address_from_tuple_ipv6 (tuple : List PyVal) :
    Except AddrErr (AddressHP × ℕ × ℕ) := do
  let addr ← Address_from_tuple tuple
  let flowinfo ← match tuple[2]? with
    | some o => u32FromObject o
    | none => Except.ok 0
  let scopeid ← match tuple[3]? with
    | some o => u32FromObject o
    | none => Except.ok 0
  if 1048575 < flowinfo then
    .error ⟨.overflowError, "flowinfo must be 0-1048575."⟩
  else .ok (addr, flowinfo, scopeid)

/-- Model of `std::net::SocketAddr`. -/
inductive SocketAddr where
  | V4 (a b c d : ℕ) (port : ℕ)
  | V6 (segs : List ℕ) (port flowinfo scopeid : ℕ)
deriving DecidableEq, Repr

/-- Model of `socket2::SockAddr`: an IP socket address, a unix-domain path,
or an address of an unsupported family. -/
inductive NativeAddr where
  | inet (sa : SocketAddr)
  | unixPath (path : String)
  | otherFam (family : Int)
deriving DecidableEq, Repr

/-- The size of `sockaddr_un.sun_path`. -/
def SUN_PATH_LEN : ℕ := 108

/-- Model of `socket2::SockAddr::unix` (external, std
`from_pathname` semantics): fails when the path holds an interior NUL byte
or does not fit in `sun_path`. -/
def sockaddr_unix (path : String) : Except Unit NativeAddr :=
  if path.toList.contains (Char.ofNat 0) then .error ()
  else if SUN_PATH_LEN ≤ path.utf8ByteSize then .error ()
  else .ok (.unixPath path)

/-- `get_addr`: wildcard and broadcast special cases, then the numeric
literal parses, then the name-resolution fallback (`dns_lookup`, an
external collaborator, passed in as `resolver`).  Note the faithful quirk
of the source: both numeric branches test `AF_INET`, so an `AF_INET6` query
never takes the numeric IPv6 parse and always reaches the resolver. -/
def get_addr (resolver : String → Int → Except AddrErr SocketAddr)
    (name : String) (af : Int) : Except AddrErr SocketAddr :=
  if name = "" then resolver name af
  else if name = "255.255.255.255" ∨ name = "<broadcast>" then
    if af = AF_INET ∨ af = AF_UNSPEC then .ok (.V4 255 255 255 255 0)
    else .error ⟨.osError, "address family mismatched"⟩
  else
    match (if af = AF_INET ∨ af = AF_UNSPEC then parse4 name else none) with
    | some (a, b, c, d) => .ok (.V4 a b c d 0)
    | none =>
      match (if (af = AF_INET ∨ af = AF_UNSPEC) ∧ ¬ name.toList.contains '%'
             then parse6 name else none) with
      | some segs => .ok (.V6 segs 0 0 0)
      | none => resolver name af

/-- `PySocket::extract_address`: family dispatch encoding a Python address
value into a native address.  The `V4`/`V6` mismatch arms model the
`unreachable` panics of the source. -/
def extract_address (family : Int)
    (resolver : String → Int → Except AddrErr SocketAddr)
    (addr : PyVal) (caller : String) : Except AddrErr NativeAddr :=
  if family = AF_UNIX then
    match addr with
    | .pyStr path =>
      match sockaddr_unix path with
      | .ok na => .ok na
      | .error _ => .error ⟨.osError, "AF_UNIX path too long"⟩
    | _ => .error ⟨.typeError, "a bytes-like object is required"⟩
  else if family = AF_INET then
    match addr with
    | .pyTuple tuple =>
      if tuple.length ≠ 2 then
        .error ⟨.typeError, "AF_INET address must be a pair (host, post)"⟩
      else do
        let a ← Address_from_tuple tuple
        match ← get_addr resolver a.host AF_INET with
        | .V4 x y z w _ => .ok (.inet (.V4 x y z w a.port))
        | .V6 _ _ _ _ => .error ⟨.unreachableReached, "unreachable"⟩
    | _ => .error ⟨.typeError, caller ++ "(): AF_INET address must be tuple"⟩
  else if family = AF_INET6 then
    match addr with
    | .pyTuple tuple =>
      if tuple.length = 2 ∨ tuple.length = 3 ∨ tuple.length = 4 then do
        let (a, flowinfo, scopeid) ← Address_from_tuple_ipv6 tuple
        match ← get_addr resolver a.host AF_INET6 with
        | .V6 segs _ _ _ => .ok (.inet (.V6 segs a.port flowinfo scopeid))
        | .V4 _ _ _ _ _ => .error ⟨.unreachableReached, "unreachable"⟩
      else
        .error ⟨.typeError,
          "AF_INET6 address must be a tuple (host, port[, flowinfo[, scopeid]])"⟩
    | _ => .error ⟨.typeError, caller ++ "(): AF_INET6 address must be tuple"⟩
  else .error ⟨.osError, caller ++ "(): bad family"⟩

/-- `get_ip_addr_tuple`: decode an IP socket address to the Python tuple
shape, rendering the host with the std formatter. -/
def get_ip_addr_tuple (addr : SocketAddr) : PyVal :=
  match addr with
  | .V4 a b c d port => .pyTuple [.pyStr (String.mk (format4 a b c d)), .pyInt port]
  | .V6 segs port flow scope =>
    .pyTuple [.pyStr (format6 segs), .pyInt port, .pyInt flow, .pyInt scope]

/-- `get_addr_tuple`: IP addresses decode through `get_ip_addr_tuple`, unix
addresses decode to the stored path string (read back through `CStr`, which
returns the NUL-free path the encoder stored), and unsupported families
decode to the empty placeholder pair. -/
def get_addr_tuple (addr : NativeAddr) : PyVal :=
  match addr with
  | .inet sa => get_ip_addr_tuple sa
  | .unixPath path => .pyStr path
  | .otherFam _ => .pyTuple [.pyStr "", .pyInt 0]

/-! ## Connect -/

/-- The closure `connect_inner` passes to the retry engine: read
`take_error()`; a pending `EISCONN` and no pending error are success, any
other pending error is the failure, and a failing `take_error` itself
propagates. -/
def connectCompletionCheck (takeError : Except IoError (Option IoError)) :
    Except IoError Unit :=
  match takeError with
  | .error e => .error e
  | .ok (some e) => if e.code = some EISCONN then .ok () else .error e
  | .ok none => .ok ()

/-- Oracle events for one outer iteration of the connect-completion wait:
as `OuterIter`, but the attempt results are the raw `take_error` results. -/
structure ConnIter where
  now : ℤ
  pollResult : Except IoError Bool
  pollSignal : Option PyExc
  takeErrors : List (Except IoError (Option IoError))
  attemptSignals : List (Option PyExc)
deriving DecidableEq, Repr

/-- View a connect iteration as an engine iteration by applying the
completion check to each `take_error` result. -/
def ConnIter.toOuter (ci : ConnIter) : OuterIter Unit :=
  ⟨ci.now, ci.pollResult, ci.pollSignal, ci.takeErrors.map connectCompletionCheck,
   ci.attemptSignals⟩

/-- `PySocket::connect_inner`: extract the address, attempt the connect
(outcome given by the oracle `connectResult`); on interruption check
signals and wait whenever the timeout is not zero; on any other failure
wait only when the timeout is positive and the error is `EINPROGRESS`; the
wait runs the retry engine with `Connect` interest over the completion
check, and without a wait the original error propagates. -/
def connect_inner (family : Int)
    (resolver : String → Int → Except AddrErr SocketAddr)
    (address : PyVal) (caller : String) (timeout : ℤ)
    (connectResult : Except IoError Unit) (connectSignal : Option PyExc)
    (engineStart : ℤ) (iters : List ConnIter) :
    Option (Except IoOrPyException Unit) :=
  match extract_address family resolver address caller with
  | .error e => some (.error (.Py (.addrExc e)))
  | .ok _ =>
    match connectResult with
    | .ok () => some (.ok ())
    | .error err =>
      if err.kind = .interrupted then
        match connectSignal with
        | some exc => some (.error (.Py exc))
        | none =>
          if timeout ≠ 0 then
            sock_op_err timeout .connect engineStart (iters.map ConnIter.toOuter)
          else some (.error (.Io err))
      else
        if 0 < timeout ∧ err.code = some EINPROGRESS then
          sock_op_err timeout .connect engineStart (iters.map ConnIter.toOuter)
        else some (.error (.Io err))

/-- `IoOrPyException::errno`: the timeout outcome becomes `EWOULDBLOCK`, an
I/O error becomes its raw OS code (1 when absent), and a Python exception
propagates. -/
def IoOrPyException.errno : IoOrPyException → Except PyExc Int
  | .Timeout => .ok EWOULDBLOCK
  | .Io err => .ok (err.code.getD 1)
  | .Py exc => .error exc

/-- `PySocket::connect_ex`: success becomes `0`; a failure resolves through
`errno`. -/
def connect_ex (family : Int)
    (resolver : String → Int → Except AddrErr SocketAddr)
    (address : PyVal) (timeout : ℤ)
    (connectResult : Except IoError Unit) (connectSignal : Option PyExc)
    (engineStart : ℤ) (iters : List ConnIter) : Option (Except PyExc Int) :=
  (connect_inner family resolver address "connect_ex" timeout connectResult
      connectSignal engineStart iters).map
    (fun r =>
      match r with
      | .ok () => .ok 0
      | .error e => e.errno)

/-! ## Accept and sendall -/

/-- `PySocket::_accept`: the accept syscall run through the retry engine
with `Read` interest and the timeout bound from the stored timeout.  The
result is the new raw descriptor with the native peer address. -/
def accept_op (storedTimeout : ℤ) (start : ℤ)
    (iters : List (OuterIter (Int × NativeAddr))) :
    Option (Except IoOrPyException (Int × NativeAddr)) :=
  sock_op_err storedTimeout .read start iters

/-- Oracle events for one iteration of the `sendall` outer loop: the clock
reading for the remaining-time computation, the entry clock of the inner
engine call, the engine oracle for that call (whose attempt results carry
the byte counts of successful sends), and the result of the per-iteration
`check_signals`. -/
structure SendIter where
  now : ℤ
  engineStart : ℤ
  engineIters : List (OuterIter ℕ)
  signal : Option PyExc
deriving DecidableEq, Repr

/-- The `sendall` loop: while bytes remain, derive the remaining time from
the single deadline, run the engine with `Write` interest bounded by that
remaining time, advance the offset by the bytes sent, and check signals.
The success value is the final offset (the source returns unit; the offset
is the loop variable made observable). -/
def sendallLoop (deadline : Option ℤ) (n : ℕ) :
    List SendIter → ℕ → Option (Except IoOrPyException ℕ)
  | [], offset => if n ≤ offset then some (.ok offset) else none
  | it :: rest, offset =>
    if n ≤ offset then some (.ok offset)
    else
      let interval : Except IoOrPyException (Option ℤ) :=
        match deadline with
        | some d => (timeUntil d it.now).map some
        | none => .ok none
      match interval with
      | .error e => some (.error e)
      | .ok intv =>
        match sock_op_timeout_err .write intv it.engineStart it.engineIters with
        | none => none
        | some (.error e) => some (.error e)
        | some (.ok sent) =>
          match it.signal with
          | some exc => some (.error (.Py exc))
          | none => sendallLoop deadline n rest (offset + sent)

/-- `PySocket::sendall`: fix one deadline from the stored timeout at entry,
then run the loop from offset 0 over a buffer of `n` bytes. -/
def sendall (storedTimeout : ℤ) (start : ℤ) (n : ℕ) (its : List SendIter) :
    Option (Except IoOrPyException ℕ) :=
  let t := exceptOk (get_timeout storedTimeout)
  sendallLoop (t.map (fun q => start + q)) n its 0

/-! ## Lemmas about the retry engine -/

theorem attemptPhase_ne_timeout {R : Type} (timeout : Option ℤ) (it : OuterIter R) :
    attemptPhase timeout it ≠ .done (.error .Timeout) := by
  unfold attemptPhase
  cases attemptLoop it.attempts it.attemptSignals with
  | okR r => simp
  | pyErr e => simp
  | noFuel => simp
  | ioErr e =>
    dsimp only
    split <;> simp

theorem engineStep_timeout_cause {R : Type} (select : SelectKind) (t d : ℤ)
    (it : OuterIter R)
    (h : engineStep select (some t) (some d) it = .done (.error .Timeout)) :
    d < it.now ∨ (it.now ≤ d ∧ it.pollResult = .ok true) := by
  unfold engineStep at h
  rw [if_pos (by simp)] at h
  by_cases hn : it.now ≤ d
  · right
    refine ⟨hn, ?_⟩
    simp only [timeUntil, if_pos hn, Except.map] at h
    cases hp : it.pollResult with
    | ok b =>
      cases b with
      | true => rfl
      | false =>
        rw [hp] at h
        exact absurd h (attemptPhase_ne_timeout _ _)
    | error e =>
      rw [hp] at h
      dsimp only at h
      by_cases hk : e.kind = .interrupted
      · rw [if_pos hk] at h
        cases hps : it.pollSignal <;> rw [hps] at h <;> simp at h
      · rw [if_neg hk] at h
        simp at h
  · left
    omega

theorem engineRun_timeout_cause {R : Type} (select : SelectKind) (t d : ℤ) :
    ∀ iters : List (OuterIter R),
      engineRun select (some t) (some d) iters = some (.error .Timeout) →
      ∃ it ∈ iters, d < it.now ∨ (it.now ≤ d ∧ it.pollResult = .ok true) := by
  intro iters
  induction iters with
  | nil => intro h; simp [engineRun] at h
  | cons it rest ih =>
    intro h
    unfold engineRun at h
    cases hs : engineStep select (some t) (some d) it with
    | done r =>
      rw [hs] at h
      simp at h
      subst h
      exact ⟨it, List.mem_cons_self it rest, engineStep_timeout_cause select t d it hs⟩
    | again =>
      rw [hs] at h
      obtain ⟨it2, hmem, hcause⟩ := ih h
      exact ⟨it2, List.mem_cons_of_mem it hmem, hcause⟩
    | noFuel =>
      rw [hs] at h
      simp at h

theorem engineStep_expired {R : Type} (select : SelectKind) (t d : ℤ)
    (it : OuterIter R) (h : d < it.now) :
    engineStep select (some t) (some d) it = .done (.error .Timeout) := by
  unfold engineStep
  rw [if_pos (by simp)]
  simp only [timeUntil, if_neg (by omega : ¬ it.now ≤ d), Except.map]

theorem engineStep_poll_timeout {R : Type} (select : SelectKind) (t d : ℤ)
    (it : OuterIter R) (hn : it.now ≤ d) (hp : it.pollResult = .ok true) :
    engineStep select (some t) (some d) it = .done (.error .Timeout) := by
  unfold engineStep
  rw [if_pos (by simp)]
  simp only [timeUntil, if_pos hn, Except.map]
  rw [hp]

theorem engineStep_wouldBlock_again {R : Type} (select : SelectKind) (t d : ℤ)
    (it : OuterIter R) (e : IoError) (hn : it.now ≤ d) (hp : it.pollResult = .ok false)
    (ha : it.attempts = [.error e]) (he : e.kind = .wouldBlock) :
    engineStep select (some t) (some d) it = .again := by
  unfold engineStep
  rw [if_pos (by simp)]
  simp only [timeUntil, if_pos hn, Except.map]
  rw [hp]
  simp [attemptPhase, attemptLoop, ha, he]

/-- C1: for an operation run through the retry engine with a bounded timeout,
an exhausted deadline resolves to the dedicated Timeout outcome, and nothing
else does.  Conjuncts: (1) the Timeout outcome is distinct from every OS I/O
error outcome; (2) a deadline found exhausted while computing the remaining
time before the poll yields Timeout; (3) a poll reporting no readiness within
the bound yields Timeout; (4) a WouldBlock from the attempted syscall followed
by an iteration that finds the deadline elapsed yields Timeout; (5) the engine
reports Timeout only when some iteration found the deadline exhausted or its
poll reported no readiness in time, so no other failure is reported as
Timeout. -/
theorem c1_bounded_timeout_outcome :
    (∀ e : IoError, IoOrPyException.Io e ≠ IoOrPyException.Timeout)
    ∧ (∀ (R : Type) (select : SelectKind) (t start : ℤ) (it : OuterIter R)
         (rest : List (OuterIter R)), start + t < it.now →
         sock_op_timeout_err select (some t) start (it :: rest)
           = some (.error .Timeout))
    ∧ (∀ (R : Type) (select : SelectKind) (t start : ℤ) (it : OuterIter R)
         (rest : List (OuterIter R)),
         it.now ≤ start + t → it.pollResult = .ok true →
         sock_op_timeout_err select (some t) start (it :: rest)
           = some (.error .Timeout))
    ∧ (∀ (R : Type) (select : SelectKind) (t start : ℤ) (it1 it2 : OuterIter R)
         (e : IoError),
         it1.now ≤ start + t → it1.pollResult = .ok false →
         it1.attempts = [.error e] → e.kind = .wouldBlock →
         start + t < it2.now →
         sock_op_timeout_err select (some t) start [it1, it2]
           = some (.error .Timeout))
    ∧ (∀ (R : Type) (select : SelectKind) (t start : ℤ)
         (iters : List (OuterIter R)),
         sock_op_timeout_err select (some t) start iters = some (.error .Timeout) →
         ∃ it ∈ iters,
           start + t < it.now ∨ (it.now ≤ start + t ∧ it.pollResult = .ok true)) := by
  refine ⟨?_, ?_, ?_, ?_, ?_⟩
  · intro e h
    cases h
  · intro R select t start it rest hlt
    unfold sock_op_timeout_err
    simp only [Option.map]
    unfold engineRun
    rw [engineStep_expired select t (start + t) it hlt]
  · intro R select t start it rest hn hp
    unfold sock_op_timeout_err
    simp only [Option.map]
    unfold engineRun
    rw [engineStep_poll_timeout select t (start + t) it hn hp]
  · intro R select t start it1 it2 e hn hp ha he hlt
    unfold sock_op_timeout_err
    simp only [Option.map]
    unfold engineRun
    rw [engineStep_wouldBlock_again select t (start + t) it1 e hn hp ha he]
    unfold engineRun
    rw [engineStep_expired select t (start + t) it2 hlt]
  · intro R select t start iters h
    unfold sock_op_timeout_err at h
    simp only [Option.map] at h
    exact engineRun_timeout_cause select t (start + t) iters h

/-- Witness for C1: the three timeout detection points and the completeness
direction, evaluated on concrete engine runs. -/
theorem c1_bounded_timeout_outcome_witness :
    sock_op_timeout_err (R := ℕ) .read (some 5) 0
        [⟨6, .ok false, none, [], []⟩] = some (.error .Timeout)
    ∧ sock_op_timeout_err (R := ℕ) .read (some 5) 0
        [⟨3, .ok true, none, [], []⟩] = some (.error .Timeout)
    ∧ sock_op_timeout_err (R := ℕ) .write (some 5) 0
        [⟨1, .ok false, none, [.error ⟨.wouldBlock, some 11⟩], []⟩,
         ⟨9, .ok false, none, [], []⟩] = some (.error .Timeout)
    ∧ ∃ it ∈ [(⟨6, .ok false, none, [], []⟩ : OuterIter ℕ)],
        0 + 5 < it.now ∨ (it.now ≤ 0 + 5 ∧ it.pollResult = .ok true) :=
  ⟨c1_bounded_timeout_outcome.2.1 ℕ .read 5 0 _ _ (by decide),
   c1_bounded_timeout_outcome.2.2.1 ℕ .read 5 0 _ _ (by decide) (by decide),
   c1_bounded_timeout_outcome.2.2.2.1 ℕ .write 5 0 _ _ ⟨.wouldBlock, some 11⟩
     (by decide) (by decide) (by decide) (by decide) (by decide),
   c1_bounded_timeout_outcome.2.2.2.2 ℕ .read 5 0 _ (by decide)⟩

/-- C3 counterexample: an accept with stored timeout 0 (non-blocking) whose
accept syscall reports WouldBlock resolves to the WouldBlock I/O error, not
to the Timeout outcome, refuting the claim at this input. -/
theorem c3_counterexample :
    accept_op 0 0 [⟨0, .ok false, none,
        [.error ⟨.wouldBlock, some EWOULDBLOCK⟩], []⟩]
      = some (.error (.Io ⟨.wouldBlock, some EWOULDBLOCK⟩))
    ∧ (some (.error (.Io ⟨.wouldBlock, some EWOULDBLOCK⟩))
        : Option (Except IoOrPyException (Int × NativeAddr)))
      ≠ some (.error .Timeout) := by
  constructor
  · rfl
  · decide

/-- C3 amended: an accept on a non-blocking handle (stored timeout 0) whose
accept syscall reports WouldBlock propagates that WouldBlock I/O error
immediately, with no polling (the result does not depend on any poll oracle
field), and the result is not the Timeout outcome. -/
theorem c3_amended (e : IoError) (he : e.kind = .wouldBlock) (now start : ℤ)
    (pr : Except IoError Bool) (ps : Option PyExc) (sigs : List (Option PyExc))
    (rest : List (OuterIter (Int × NativeAddr))) :
    accept_op 0 start (⟨now, pr, ps, [.error e], sigs⟩ :: rest)
      = some (.error (.Io e))
    ∧ (.error (.Io e) : Except IoOrPyException (Int × NativeAddr))
      ≠ .error .Timeout := by
  constructor
  · simp [accept_op, sock_op_err, sock_op_timeout_err, get_timeout, exceptOk,
      Option.map, engineRun, engineStep, attemptPhase, attemptLoop, he]
  · intro h
    cases h

/-- Witness for C3 amended at a concrete non-blocking accept. -/
theorem c3_amended_witness :
    accept_op 0 7 [⟨7, .ok false, none,
        [.error ⟨.wouldBlock, some EWOULDBLOCK⟩], []⟩]
      = some (.error (.Io ⟨.wouldBlock, some EWOULDBLOCK⟩)) :=
  (c3_amended ⟨.wouldBlock, some EWOULDBLOCK⟩ (by decide) 7 7 (.ok false) none
    [] []).1

/-- C4 counterexample: constructing (adopting a descriptor whose OS flag is
already non-blocking) under a blocking-forever process default leaves the
flag non-blocking while the stored timeout is the blocking-forever value, so
the flag differs from the predicate that the timeout is not
blocking-forever. -/
theorem c4_counterexample :
    (init_inner (-1) ⟨-1, true⟩).nonblocking = true
    ∧ (init_inner (-1) ⟨-1, true⟩).timeout = -1
    ∧ (init_inner (-1) ⟨-1, true⟩).nonblocking
      ≠ decide (0 ≤ (init_inner (-1) ⟨-1, true⟩).timeout) := by
  decide

/-- C4 amended: `setblocking` stores -1 or 0 and sets the flag to the
negation of its argument, `settimeout` sets the flag exactly when a value is
supplied, and after either operation the flag equals the predicate that the
stored timeout is not blocking-forever; after construction the same equality
holds provided the default timeout is nonnegative or the adopted descriptor
was in blocking mode (a negative default leaves the flag untouched). -/
theorem c4_amended :
    (∀ (s : SockState) (b : Bool),
        (setblocking b s).timeout = (if b then -1 else 0)
        ∧ (setblocking b s).nonblocking = !b
        ∧ (setblocking b s).nonblocking = decide (0 ≤ (setblocking b s).timeout))
    ∧ (∀ (s : SockState) (t : Option ℤ), (∀ d ∈ t, 0 ≤ d) →
        (settimeout t s).nonblocking = t.isSome
        ∧ (settimeout t s).nonblocking = decide (0 ≤ (settimeout t s).timeout))
    ∧ (∀ (s : SockState) (dt : ℤ), 0 ≤ dt ∨ s.nonblocking = false →
        (init_inner dt s).nonblocking = decide (0 ≤ (init_inner dt s).timeout)) := by
  refine ⟨?_, ?_, ?_⟩
  · intro s b
    cases b <;> simp [setblocking]
  · intro s t ht
    cases t with
    | none => simp [settimeout]
    | some d =>
      have hd : 0 ≤ d := ht d rfl
      simp [settimeout]
      exact hd
  · intro s dt h
    cases h with
    | inl hle => simp [init_inner, if_pos hle, decide_eq_true hle]
    | inr hnb =>
      by_cases hle : 0 ≤ dt
      · simp [init_inner, if_pos hle, decide_eq_true hle]
      · simp [init_inner, if_neg hle, hnb]
        omega

/-- Witness for C4 amended at concrete states and timeout values. -/
theorem c4_amended_witness :
    (setblocking false ⟨-1, false⟩).timeout = 0
    ∧ (setblocking false ⟨-1, false⟩).nonblocking = true
    ∧ (settimeout (some 3) ⟨-1, false⟩).nonblocking = true
    ∧ (init_inner 0 ⟨-1, false⟩).nonblocking
      = decide (0 ≤ (init_inner 0 ⟨-1, false⟩).timeout) :=
  ⟨(c4_amended.1 ⟨-1, false⟩ false).1,
   (c4_amended.1 ⟨-1, false⟩ false).2.1,
   ((c4_amended.2.1 ⟨-1, false⟩ (some 3) (by decide)).1),
   c4_amended.2.2 ⟨-1, false⟩ 0 (Or.inl (by decide))⟩

/-- C10: `getblocking` is true exactly when the stored timeout is nonzero,
so a handle with a positive bounded timeout reports blocking even though
`settimeout` has just set the OS flag to non-blocking; `gettimeout` returns
the stored value exactly when it is nonnegative. -/
theorem c10_blocking_accessors :
    (∀ s : SockState, getblocking s = decide (s.timeout ≠ 0))
    ∧ (∀ (s : SockState) (t : ℤ), 0 < t →
        getblocking (settimeout (some t) s) = true
        ∧ (settimeout (some t) s).nonblocking = true)
    ∧ (∀ s : SockState, 0 ≤ s.timeout → gettimeout s = some s.timeout)
    ∧ (∀ s : SockState, ¬ 0 ≤ s.timeout → gettimeout s = none) := by
  refine ⟨?_, ?_, ?_, ?_⟩
  · intro s
    rfl
  · intro s t ht
    constructor
    · simp [getblocking, settimeout]
      omega
    · simp [settimeout]
  · intro s h
    simp [gettimeout, if_pos h]
  · intro s h
    simp [gettimeout, if_neg h]

/-- Witness for C10 with a positive bounded timeout and a negative stored
timeout. -/
theorem c10_blocking_accessors_witness :
    getblocking ⟨3, true⟩ = decide ((3 : ℤ) ≠ 0)
    ∧ getblocking (settimeout (some 3) ⟨-1, false⟩) = true
    ∧ (settimeout (some 3) ⟨-1, false⟩).nonblocking = true
    ∧ gettimeout ⟨0, true⟩ = some 0
    ∧ gettimeout ⟨-1, false⟩ = none :=
  ⟨c10_blocking_accessors.1 ⟨3, true⟩,
   (c10_blocking_accessors.2.1 ⟨-1, false⟩ 3 (by decide)).1,
   (c10_blocking_accessors.2.1 ⟨-1, false⟩ 3 (by decide)).2,
   c10_blocking_accessors.2.2.1 ⟨0, true⟩ (by decide),
   c10_blocking_accessors.2.2.2 ⟨-1, false⟩ (by decide)⟩

/-- C8: closing an already-invalid handle is a no-op success independent of
the OS close oracle; detaching twice returns the invalid sentinel the second
time; a connection-reset failure of the OS close is swallowed as success;
and any other failing close reports the error with its code. -/
theorem c8_close_detach :
    (∀ osClose : Int → Int × Int,
        close INVALID_SOCKET osClose = (INVALID_SOCKET, .ok ()))
    ∧ (∀ fd : Int, (detach (detach fd).1).2 = INVALID_SOCKET)
    ∧ (∀ fd ret : Int, ret < 0 →
        close fd (fun _ => (ret, ECONNRESET)) = (INVALID_SOCKET, .ok ()))
    ∧ (∀ fd ret errno : Int, fd ≠ INVALID_SOCKET → ret < 0 → errno ≠ ECONNRESET →
        close fd (fun _ => (ret, errno))
          = (INVALID_SOCKET, .error ⟨.otherKind, some errno⟩)) := by
  refine ⟨?_, ?_, ?_, ?_⟩
  · intro osClose
    simp [close, detach]
  · intro fd
    rfl
  · intro fd ret hret
    by_cases hfd : fd = INVALID_SOCKET
    · simp [close, detach, hfd]
    · simp [close, detach, hfd, _socket_close, if_pos hret]
  · intro fd ret errno hfd hret herr
    simp [close, detach, hfd, _socket_close, if_pos hret, herr]

/-- Witness for C8: close of the invalid handle, double detach, a close
swallowing a connection reset, and a close reporting another errno. -/
theorem c8_close_detach_witness :
    close INVALID_SOCKET (fun _ => (-1, 9)) = (INVALID_SOCKET, .ok ())
    ∧ (detach (detach 5).1).2 = INVALID_SOCKET
    ∧ close 5 (fun _ => (-1, ECONNRESET)) = (INVALID_SOCKET, .ok ())
    ∧ close 5 (fun _ => (-1, 9))
      = (INVALID_SOCKET, .error ⟨.otherKind, some 9⟩) :=
  ⟨c8_close_detach.1 (fun _ => (-1, 9)),
   c8_close_detach.2.1 5,
   c8_close_detach.2.2.1 5 (-1) (by decide),
   c8_close_detach.2.2.2 5 (-1) 9 (by decide) (by decide) (by decide)⟩

/-- C2 counterexample: with a blocking-forever timeout (-1) configured and
the connect attempt failing with the in-progress code, the engine does not
wait: the in-progress error propagates even though the pending-error oracle
reports no pending error, which per the claim would make the call succeed. -/
theorem c2_counterexample :
    connect_inner AF_INET (fun _ _ => .error ⟨.osError, "resolver"⟩)
        (.pyTuple [.pyStr "127.0.0.1", .pyInt 80]) "connect" (-1)
        (.error ⟨.otherKind, some EINPROGRESS⟩) none 0
        [⟨0, .ok false, none, [.ok none], []⟩]
      = some (.error (.Io ⟨.otherKind, some EINPROGRESS⟩))
    ∧ (some (.error (.Io ⟨.otherKind, some EINPROGRESS⟩))
        : Option (Except IoOrPyException Unit)) ≠ some (.ok ()) := by
  constructor
  · rfl
  · decide

/-- C2 amended: when connect fails with the in-progress code and a bounded
(positive) timeout is configured, the call becomes exactly a retry-engine
run with `Connect` interest (write-or-error readiness, per
`pollInterest`) over the pending-error resolution, which treats a pending
`EISCONN` and no pending error as success and propagates any other pending
error; a blocking-forever timeout does not wait (see the counterexample). -/
theorem c2_amended (family : Int)
    (resolver : String → Int → Except AddrErr SocketAddr) (address : PyVal)
    (caller : String) (timeout : ℤ) (err : IoError) (sig : Option PyExc)
    (engineStart : ℤ) (iters : List ConnIter) (na : NativeAddr)
    (hext : extract_address family resolver address caller = .ok na)
    (ht : 0 < timeout) (hk : err.kind ≠ .interrupted)
    (hc : err.code = some EINPROGRESS) :
    connect_inner family resolver address caller timeout (.error err) sig
        engineStart iters
      = sock_op_timeout_err .connect (some timeout) engineStart
          (iters.map ConnIter.toOuter)
    ∧ pollInterest .connect = [.pollout, .pollerr]
    ∧ (∀ e : IoError, e.code = some EISCONN →
        connectCompletionCheck (.ok (some e)) = .ok ())
    ∧ connectCompletionCheck (.ok none) = .ok ()
    ∧ (∀ e : IoError, e.code ≠ some EISCONN →
        connectCompletionCheck (.ok (some e)) = .error e) := by
  refine ⟨?_, rfl, ?_, rfl, ?_⟩
  · have hgt : exceptOk (get_timeout timeout) = some timeout := by
      unfold get_timeout
      rw [if_pos ht]
      rfl
    unfold connect_inner
    rw [hext]
    dsimp only
    rw [if_neg hk, if_pos ⟨ht, hc⟩]
    unfold sock_op_err
    rw [hgt]
  · intro e he
    simp [connectCompletionCheck, he]
  · intro e he
    simp [connectCompletionCheck, if_neg he]

/-- Witness for C2 amended: a concrete bounded-timeout in-progress connect
reduces to the engine run, and the completion check accepts a pending
`EISCONN`. -/
theorem c2_amended_witness :
    connect_inner AF_INET (fun _ _ => .error ⟨.osError, "resolver"⟩)
        (.pyTuple [.pyStr "127.0.0.1", .pyInt 80]) "connect" 1
        (.error ⟨.otherKind, some EINPROGRESS⟩) none 0
        [⟨0, .ok false, none, [.ok none], []⟩]
      = sock_op_timeout_err .connect (some 1) 0
          (List.map ConnIter.toOuter [⟨0, .ok false, none, [.ok none], []⟩])
    ∧ connectCompletionCheck (.ok (some ⟨.otherKind, some EISCONN⟩)) = .ok () :=
  ⟨(c2_amended AF_INET (fun _ _ => .error ⟨.osError, "resolver"⟩)
      (.pyTuple [.pyStr "127.0.0.1", .pyInt 80]) "connect" 1
      ⟨.otherKind, some EINPROGRESS⟩ none 0
      [⟨0, .ok false, none, [.ok none], []⟩] (.inet (.V4 127 0 0 1 80))
      rfl (by decide) (by decide) (by decide)).1,
   (c2_amended AF_INET (fun _ _ => .error ⟨.osError, "resolver"⟩)
      (.pyTuple [.pyStr "127.0.0.1", .pyInt 80]) "connect" 1
      ⟨.otherKind, some EINPROGRESS⟩ none 0
      [⟨0, .ok false, none, [.ok none], []⟩] (.inet (.V4 127 0 0 1 80))
      rfl (by decide) (by decide) (by decide)).2.2.1
     ⟨.otherKind, some EISCONN⟩ (by decide)⟩

/-- C9 counterexample: `connect_ex` with a malformed address raises: the
propagated exception is an address-extraction error, not an error of the
cooperative cancellation check (every signal oracle here is `none`), so
exceptions do not come only from the cancellation check. -/
theorem c9_counterexample :
    connect_ex AF_INET (fun _ _ => .error ⟨.osError, "resolver"⟩)
        (.pyStr "not-a-tuple") (-1) (.ok ()) none 0 []
      = some (.error (.addrExc ⟨.typeError,
          "connect_ex(): AF_INET address must be tuple"⟩))
    ∧ (∀ n : ℕ, PyExc.addrExc ⟨.typeError,
          "connect_ex(): AF_INET address must be tuple"⟩ ≠ .signalExc n) := by
  constructor
  · rfl
  · intro n h
    cases h

/-- C9 amended: `connect_ex` never raises on an I/O-level failure: success
maps to 0, the Timeout outcome maps to `EWOULDBLOCK`, any other I/O failure
maps to its raw OS code (1 when absent), and only a Python-level exception
(from address extraction or a cancellation check) propagates. -/
theorem c9_amended (family : Int)
    (resolver : String → Int → Except AddrErr SocketAddr) (address : PyVal)
    (timeout : ℤ) (cr : Except IoError Unit) (cs : Option PyExc)
    (start : ℤ) (iters : List ConnIter) :
    (connect_inner family resolver address "connect_ex" timeout cr cs start
        iters = some (.ok ()) →
      connect_ex family resolver address timeout cr cs start iters
        = some (.ok 0))
    ∧ (∀ e : IoError,
        connect_inner family resolver address "connect_ex" timeout cr cs start
          iters = some (.error (.Io e)) →
        connect_ex family resolver address timeout cr cs start iters
          = some (.ok (e.code.getD 1)))
    ∧ (connect_inner family resolver address "connect_ex" timeout cr cs start
        iters = some (.error .Timeout) →
      connect_ex family resolver address timeout cr cs start iters
        = some (.ok EWOULDBLOCK))
    ∧ (∀ exc : PyExc,
        connect_inner family resolver address "connect_ex" timeout cr cs start
          iters = some (.error (.Py exc)) →
        connect_ex family resolver address timeout cr cs start iters
          = some (.error exc)) := by
  refine ⟨?_, ?_, ?_, ?_⟩
  · intro h
    unfold connect_ex
    rw [h]
    rfl
  · intro e h
    unfold connect_ex
    rw [h]
    rfl
  · intro h
    unfold connect_ex
    rw [h]
    rfl
  · intro exc h
    unfold connect_ex
    rw [h]
    rfl

/-- Witness for C9 amended: concrete connects hitting all four outcomes:
success, a refused connect under blocking-forever mode, a timed-out bounded
connect, and a cancellation-check error. -/
theorem c9_amended_witness :
    connect_ex AF_INET (fun _ _ => .error ⟨.osError, "resolver"⟩)
        (.pyTuple [.pyStr "127.0.0.1", .pyInt 80]) (-1) (.ok ()) none 0 []
      = some (.ok 0)
    ∧ connect_ex AF_INET (fun _ _ => .error ⟨.osError, "resolver"⟩)
        (.pyTuple [.pyStr "127.0.0.1", .pyInt 80]) (-1)
        (.error ⟨.otherKind, some 111⟩) none 0 []
      = some (.ok 111)
    ∧ connect_ex AF_INET (fun _ _ => .error ⟨.osError, "resolver"⟩)
        (.pyTuple [.pyStr "127.0.0.1", .pyInt 80]) 1
        (.error ⟨.otherKind, some EINPROGRESS⟩) none 0
        [⟨2, .ok false, none, [.ok none], []⟩]
      = some (.ok EWOULDBLOCK)
    ∧ connect_ex AF_INET (fun _ _ => .error ⟨.osError, "resolver"⟩)
        (.pyTuple [.pyStr "127.0.0.1", .pyInt 80]) (-1)
        (.error ⟨.interrupted, none⟩) (some (.signalExc 7)) 0 []
      = some (.error (.signalExc 7)) :=
  ⟨(c9_amended AF_INET (fun _ _ => .error ⟨.osError, "resolver"⟩)
      (.pyTuple [.pyStr "127.0.0.1", .pyInt 80]) (-1) (.ok ()) none 0 []).1 rfl,
   (c9_amended AF_INET (fun _ _ => .error ⟨.osError, "resolver"⟩)
      (.pyTuple [.pyStr "127.0.0.1", .pyInt 80]) (-1)
      (.error ⟨.otherKind, some 111⟩) none 0 []).2.1
     ⟨.otherKind, some 111⟩ rfl,
   (c9_amended AF_INET (fun _ _ => .error ⟨.osError, "resolver"⟩)
      (.pyTuple [.pyStr "127.0.0.1", .pyInt 80]) 1
      (.error ⟨.otherKind, some EINPROGRESS⟩) none 0
      [⟨2, .ok false, none, [.ok none], []⟩]).2.2.1 rfl,
   (c9_amended AF_INET (fun _ _ => .error ⟨.osError, "resolver"⟩)
      (.pyTuple [.pyStr "127.0.0.1", .pyInt 80]) (-1)
      (.error ⟨.interrupted, none⟩) (some (.signalExc 7)) 0 []).2.2.2
     (.signalExc 7) rfl⟩

theorem sendallLoop_ok_ge (deadline : Option ℤ) (n : ℕ) :
    ∀ (its : List SendIter) (offset m : ℕ),
      sendallLoop deadline n its offset = some (.ok m) → n ≤ m := by
  intro its
  induction its with
  | nil =>
    intro offset m h
    unfold sendallLoop at h
    by_cases hle : n ≤ offset
    · rw [if_pos hle] at h
      simp at h
      omega
    · rw [if_neg hle] at h
      simp at h
  | cons it rest ih =>
    intro offset m h
    unfold sendallLoop at h
    by_cases hle : n ≤ offset
    · rw [if_pos hle] at h
      simp at h
      omega
    · rw [if_neg hle] at h
      dsimp only at h
      cases hi : (match deadline with
          | some d => (timeUntil d it.now).map some
          | none => (.ok none : Except IoOrPyException (Option ℤ))) with
      | error e =>
        rw [hi] at h
        simp at h
      | ok intv =>
        rw [hi] at h
        dsimp only at h
        cases he : sock_op_timeout_err .write intv it.engineStart it.engineIters with
        | none =>
          rw [he] at h
          simp at h
        | some r =>
          rw [he] at h
          cases r with
          | error e =>
            simp at h
          | ok sent =>
            dsimp only at h
            cases hs : it.signal with
            | some exc =>
              rw [hs] at h
              simp at h
            | none =>
              rw [hs] at h
              exact ih (offset + sent) m h

/-- C5: the `sendall` loop transfers all bytes (a successful return has
final offset at least the buffer length, across partial writes); the
cooperative cancellation check runs on every iteration even when no timeout
is configured (conjunct 2: a signal arriving after a successful partial
write aborts the call even with no timeout); and the remaining wait bound of
every iteration derives from the single deadline fixed at entry (conjunct 3:
the first iteration is bounded by `start + t - now1` and a second iteration
past `start + t` times out against that same deadline). -/
theorem c5_sendall_loop :
    (∀ (storedTimeout start : ℤ) (n : ℕ) (its : List SendIter) (m : ℕ),
        sendall storedTimeout start n its = some (.ok m) → n ≤ m)
    ∧ (∀ (storedTimeout start : ℤ) (n : ℕ) (it : SendIter)
         (rest : List SendIter) (s : ℕ) (exc : PyExc),
        storedTimeout ≤ 0 → 0 < n →
        sock_op_timeout_err .write none it.engineStart it.engineIters
          = some (.ok s) →
        it.signal = some exc →
        sendall storedTimeout start n (it :: rest) = some (.error (.Py exc)))
    ∧ (∀ (t start : ℤ) (n : ℕ) (it1 it2 : SendIter) (rest : List SendIter)
         (s1 : ℕ),
        0 < t → it1.now ≤ start + t →
        sock_op_timeout_err .write (some (start + t - it1.now)) it1.engineStart
            it1.engineIters = some (.ok s1) →
        it1.signal = none → s1 < n → start + t < it2.now →
        sendall t start n (it1 :: it2 :: rest) = some (.error .Timeout)) := by
  refine ⟨?_, ?_, ?_⟩
  · intro storedTimeout start n its m h
    exact sendallLoop_ok_ge _ n its 0 m h
  · intro storedTimeout start n it rest s exc hst hn heng hsig
    have hgt : exceptOk (get_timeout storedTimeout) = none := by
      unfold get_timeout
      rw [if_neg (by omega)]
      rfl
    unfold sendall
    rw [hgt]
    unfold sendallLoop
    rw [if_neg (by omega)]
    dsimp only [Option.map]
    rw [heng]
    dsimp only
    rw [hsig]
  · intro t start n it1 it2 rest s1 ht hn1 heng hsig hlt hn2
    have hgt : exceptOk (get_timeout t) = some t := by
      unfold get_timeout
      rw [if_pos ht]
      rfl
    unfold sendall
    rw [hgt]
    dsimp only [Option.map]
    unfold sendallLoop
    rw [if_neg (by omega)]
    dsimp only
    rw [show timeUntil (start + t) it1.now = .ok (start + t - it1.now) from by
      unfold timeUntil
      rw [if_pos hn1]]
    dsimp only [Except.map]
    rw [heng]
    dsimp only
    rw [hsig]
    unfold sendallLoop
    rw [if_neg (by omega)]
    dsimp only
    rw [show timeUntil (start + t) it2.now = .error .Timeout from by
      unfold timeUntil
      rw [if_neg (by omega)]]
    rfl

/-- Witness for C5: a two-partial-write run completing 3 bytes, a
no-timeout run aborted by a signal after a successful write, and a bounded
run timing out against the shared deadline on its second iteration. -/
theorem c5_sendall_loop_witness :
    (3 : ℕ) ≤ 7
    ∧ sendall 0 0 1
        [⟨0, 0, [⟨0, .ok false, none, [.ok 1], []⟩], some (.signalExc 3)⟩]
      = some (.error (.Py (.signalExc 3)))
    ∧ sendall 5 0 10
        [⟨2, 2, [⟨2, .ok false, none, [.ok 4], []⟩], none⟩,
         ⟨6, 6, [], none⟩]
      = some (.error .Timeout) :=
  ⟨c5_sendall_loop.1 0 0 3
     [⟨0, 0, [⟨0, .ok false, none, [.ok 2], []⟩], none⟩,
      ⟨0, 0, [⟨0, .ok false, none, [.ok 5], []⟩], none⟩] 7 rfl,
   c5_sendall_loop.2.1 0 0 1
     ⟨0, 0, [⟨0, .ok false, none, [.ok 1], []⟩], some (.signalExc 3)⟩ [] 1
     (.signalExc 3) (by decide) (by decide) rfl rfl,
   c5_sendall_loop.2.2 5 0 10
     ⟨2, 2, [⟨2, .ok false, none, [.ok 4], []⟩], none⟩
     ⟨6, 6, [], none⟩ [] 4 (by decide) (by decide) rfl rfl (by decide)
     (by decide)⟩

/-! ## Lemmas about the address codec -/

theorem Address_from_tuple_eval (host : String) (port : Int) (rest : List PyVal)
    (h0 : 0 ≤ port) (h1 : port ≤ 65535) :
    Address_from_tuple (.pyStr host :: .pyInt port :: rest)
      = .ok ⟨host, port.toNat⟩ := by
  unfold Address_from_tuple
  simp only [List.getElem?_cons_zero, List.getElem?_cons_succ]
  simp only [pyStrFromObject, i32FromObject,
    if_pos (by omega : -2147483648 ≤ port ∧ port ≤ 2147483647)]
  dsimp only [Bind.bind, Except.bind]
  rw [if_pos (And.intro h0 h1)]

theorem Address_from_tuple_ipv6_eval2 (host : String) (port : Int)
    (h0 : 0 ≤ port) (h1 : port ≤ 65535) :
    Address_from_tuple_ipv6 [.pyStr host, .pyInt port]
      = .ok (⟨host, port.toNat⟩, 0, 0) := by
  unfold Address_from_tuple_ipv6
  rw [Address_from_tuple_eval host port _ h0 h1]
  rfl

theorem Address_from_tuple_ipv6_eval3 (host : String) (port fi : Int)
    (h0 : 0 ≤ port) (h1 : port ≤ 65535) (hf0 : 0 ≤ fi) (hf1 : fi ≤ 4294967295) :
    Address_from_tuple_ipv6 [.pyStr host, .pyInt port, .pyInt fi]
      = (if 1048575 < fi.toNat then
          .error ⟨.overflowError, "flowinfo must be 0-1048575."⟩
         else .ok (⟨host, port.toNat⟩, fi.toNat, 0)) := by
  unfold Address_from_tuple_ipv6
  rw [Address_from_tuple_eval host port _ h0 h1]
  simp only [List.getElem?_cons_zero, List.getElem?_cons_succ, List.getElem?_nil]
  simp only [u32FromObject, if_pos (And.intro hf0 hf1)]
  dsimp only [Bind.bind, Except.bind]

theorem Address_from_tuple_ipv6_eval4 (host : String) (port fi si : Int)
    (h0 : 0 ≤ port) (h1 : port ≤ 65535) (hf0 : 0 ≤ fi) (hf1 : fi ≤ 1048575)
    (hs0 : 0 ≤ si) (hs1 : si ≤ 4294967295) :
    Address_from_tuple_ipv6 [.pyStr host, .pyInt port, .pyInt fi, .pyInt si]
      = .ok (⟨host, port.toNat⟩, fi.toNat, si.toNat) := by
  unfold Address_from_tuple_ipv6
  rw [Address_from_tuple_eval host port _ h0 h1]
  simp only [List.getElem?_cons_zero, List.getElem?_cons_succ, List.getElem?_nil]
  simp only [u32FromObject, if_pos (by omega : 0 ≤ fi ∧ fi ≤ 4294967295),
    if_pos (And.intro hs0 hs1)]
  dsimp only [Bind.bind, Except.bind]
  rw [if_neg (by omega : ¬ 1048575 < fi.toNat)]

/-- C6: for IPv6 address tuples, a tuple length other than 2, 3 or 4 is a
type error; an in-range-for-u32 flow info above `0xFFFFF` is rejected with
the dedicated range error before any syscall (the result is this error for
every resolver, so name resolution is never consulted); and a missing flow
info or scope id defaults to 0 in the parsed triple and in the encoded
native address. -/
theorem c6_ipv6_address_validation :
    (∀ (resolver : String → Int → Except AddrErr SocketAddr) (xs : List PyVal)
        (caller : String),
        ¬ (xs.length = 2 ∨ xs.length = 3 ∨ xs.length = 4) →
        extract_address AF_INET6 resolver (.pyTuple xs) caller
          = .error ⟨.typeError,
              "AF_INET6 address must be a tuple (host, port[, flowinfo[, scopeid]])"⟩)
    ∧ (∀ (resolver : String → Int → Except AddrErr SocketAddr) (caller : String)
         (host : String) (port fi : Int),
        0 ≤ port → port ≤ 65535 → fi ≤ 4294967295 → 1048575 < fi →
        extract_address AF_INET6 resolver
            (.pyTuple [.pyStr host, .pyInt port, .pyInt fi]) caller
          = .error ⟨.overflowError, "flowinfo must be 0-1048575."⟩)
    ∧ (∀ (host : String) (port : Int), 0 ≤ port → port ≤ 65535 →
        Address_from_tuple_ipv6 [.pyStr host, .pyInt port]
          = .ok (⟨host, port.toNat⟩, 0, 0))
    ∧ (∀ (host : String) (port fi : Int), 0 ≤ port → port ≤ 65535 →
        0 ≤ fi → fi ≤ 1048575 →
        Address_from_tuple_ipv6 [.pyStr host, .pyInt port, .pyInt fi]
          = .ok (⟨host, port.toNat⟩, fi.toNat, 0))
    ∧ (∀ (resolver : String → Int → Except AddrErr SocketAddr)
         (caller host : String) (port : Int) (segs : List ℕ) (p0 f0 s0 : ℕ),
        0 ≤ port → port ≤ 65535 →
        get_addr resolver host AF_INET6 = .ok (.V6 segs p0 f0 s0) →
        extract_address AF_INET6 resolver
            (.pyTuple [.pyStr host, .pyInt port]) caller
          = .ok (.inet (.V6 segs port.toNat 0 0))) := by
  refine ⟨?_, ?_, ?_, ?_, ?_⟩
  · intro resolver xs caller hlen
    unfold extract_address
    rw [if_neg (by decide), if_neg (by decide), if_pos rfl]
    simp only []
    rw [if_neg hlen]
  · intro resolver caller host port fi h0 h1 hf1 hflow
    unfold extract_address
    rw [if_neg (by decide), if_neg (by decide), if_pos rfl]
    simp only []
    rw [if_pos (by simp)]
    rw [Address_from_tuple_ipv6_eval3 host port fi h0 h1 (by omega) hf1]
    rw [if_pos (by omega : 1048575 < fi.toNat)]
    rfl
  · intro host port h0 h1
    exact Address_from_tuple_ipv6_eval2 host port h0 h1
  · intro host port fi h0 h1 hf0 hf1
    rw [Address_from_tuple_ipv6_eval3 host port fi h0 h1 hf0 (by omega)]
    rw [if_neg (by omega : ¬ 1048575 < fi.toNat)]
  · intro resolver caller host port segs p0 f0 s0 h0 h1 hga
    unfold extract_address
    rw [if_neg (by decide), if_neg (by decide), if_pos rfl]
    simp only []
    rw [if_pos (by simp)]
    rw [Address_from_tuple_ipv6_eval2 host port h0 h1]
    dsimp only [Bind.bind, Except.bind]
    rw [hga]

/-- Witness for C6: a 5-element tuple, an out-of-range flow info (with the
resolver never consulted), the defaulting of flow info and scope id, and a
full encode of a 2-element IPv6 tuple with numeric resolution. -/
theorem c6_ipv6_address_validation_witness :
    extract_address AF_INET6 (fun _ _ => .error ⟨.osError, "resolver"⟩)
        (.pyTuple [.pyInt 0, .pyInt 1, .pyInt 2, .pyInt 3, .pyInt 4]) "bind"
      = .error ⟨.typeError,
          "AF_INET6 address must be a tuple (host, port[, flowinfo[, scopeid]])"⟩
    ∧ extract_address AF_INET6 (fun _ _ => .error ⟨.osError, "resolver"⟩)
        (.pyTuple [.pyStr "::1", .pyInt 80, .pyInt 2000000]) "bind"
      = .error ⟨.overflowError, "flowinfo must be 0-1048575."⟩
    ∧ Address_from_tuple_ipv6 [.pyStr "::1", .pyInt 80]
      = .ok (⟨"::1", 80⟩, 0, 0)
    ∧ Address_from_tuple_ipv6 [.pyStr "::1", .pyInt 80, .pyInt 7]
      = .ok (⟨"::1", 80⟩, 7, 0)
    ∧ extract_address AF_INET6
        (fun n _ => match parse6 n with
          | some segs => .ok (.V6 segs 0 0 0)
          | none => .error ⟨.osError, "name resolution failed"⟩)
        (.pyTuple [.pyStr "::1", .pyInt 80]) "bind"
      = .ok (.inet (.V6 [0, 0, 0, 0, 0, 0, 0, 1] 80 0 0)) :=
  ⟨c6_ipv6_address_validation.1 _ _ "bind" (by decide),
   c6_ipv6_address_validation.2.1 _ "bind" "::1" 80 2000000 (by decide)
     (by decide) (by decide) (by decide),
   c6_ipv6_address_validation.2.2.1 "::1" 80 (by decide) (by decide),
   c6_ipv6_address_validation.2.2.2.1 "::1" 80 7 (by decide) (by decide)
     (by decide) (by decide),
   c6_ipv6_address_validation.2.2.2.2 _ "bind" "::1" 80 [0, 0, 0, 0, 0, 0, 0, 1]
     0 0 0 (by decide) (by decide) rfl⟩

/-! ## Decimal digit round trip: the strict IPv4 parser inverts the
formatter -/

theorem ofDigs_append (L : List ℕ) (x : ℕ) :
    ofDigs (L ++ [x]) = ofDigs L + x * 10 ^ L.length := by
  induction L with
  | nil => simp [ofDigs]
  | cons d ds ih =>
    show ofDigs (d :: (ds ++ [x])) = ofDigs (d :: ds) + x * 10 ^ (d :: ds).length
    unfold ofDigs
    rw [ih, List.length_cons]
    ring

theorem foldl_digits (cs : List Char) : ∀ a : ℕ,
    List.foldl (fun x c => 10 * x + digitVal c) a cs
      = a * 10 ^ cs.length + ofDigs ((cs.map digitVal).reverse) := by
  induction cs with
  | nil => intro a; simp [ofDigs]
  | cons c cs ih =>
    intro a
    simp only [List.foldl_cons, List.map_cons, List.reverse_cons, List.length_cons]
    rw [ih (10 * a + digitVal c), ofDigs_append]
    simp only [List.length_reverse, List.length_map]
    ring

theorem bigEndVal_eq (cs : List Char) :
    bigEndVal cs = ofDigs ((cs.map digitVal).reverse) := by
  unfold bigEndVal
  rw [foldl_digits cs 0]
  simp

theorem ofDigs_eq_zero (L : List ℕ) (h : ofDigs L = 0) : ∀ d ∈ L, d = 0 := by
  induction L with
  | nil => intro d hd; cases hd
  | cons x xs ih =>
    intro d hd
    unfold ofDigs at h
    rcases List.mem_cons.mp hd with rfl | hmem
    · omega
    · exact ih (by omega) d hmem

theorem ofDigs_pos_and_le (L : List ℕ) :
    L ≠ [] → L.getLast? ≠ some 0 → 1 ≤ ofDigs L ∧ L.length ≤ ofDigs L := by
  induction L with
  | nil => intro h _; exact absurd rfl h
  | cons d ds ih =>
    intro _ hlast
    cases ds with
    | nil =>
      have hd : d ≠ 0 := by
        intro h
        exact hlast (by simp [h, List.getLast?])
      simp [ofDigs]
      omega
    | cons e es =>
      have h2 := ih (by simp) (by rw [List.getLast?_cons_cons] at hlast; exact hlast)
      unfold ofDigs
      simp only [List.length_cons] at h2 ⊢
      omega

theorem decDigitsAux_zero (fuel : ℕ) : decDigitsAux fuel 0 = [] := by
  cases fuel <;> simp [decDigitsAux]

theorem decDigitsAux_ofDigs : ∀ (L : List ℕ) (fuel : ℕ),
    (∀ d ∈ L, d < 10) → L.getLast? ≠ some 0 → L.length ≤ fuel →
    decDigitsAux fuel (ofDigs L) = L := by
  intro L
  induction L with
  | nil =>
    intro fuel _ _ _
    exact decDigitsAux_zero fuel
  | cons d ds ih =>
    intro fuel hdig hlast hlen
    cases fuel with
    | zero => simp at hlen
    | succ f =>
      have hd10 : d < 10 := hdig d (List.mem_cons_self d ds)
      cases ds with
      | nil =>
        have hd0 : d ≠ 0 := by
          intro h
          exact hlast (by simp [h, List.getLast?])
        have hofd : ofDigs [d] = d := by simp [ofDigs]
        rw [hofd]
        unfold decDigitsAux
        rw [if_neg hd0, Nat.mod_eq_of_lt hd10, Nat.div_eq_of_lt hd10,
          decDigitsAux_zero]
      | cons e es =>
        have hlast2 : (e :: es).getLast? ≠ some 0 := by
          rw [List.getLast?_cons_cons] at hlast
          exact hlast
        have hpos := ofDigs_pos_and_le (e :: es) (by simp) hlast2
        have hn0 : ofDigs (d :: e :: es) ≠ 0 := by
          unfold ofDigs
          omega
        unfold decDigitsAux
        rw [if_neg hn0]
        have hmod : ofDigs (d :: e :: es) % 10 = d := by
          show (d + 10 * ofDigs (e :: es)) % 10 = d
          omega
        have hdiv : ofDigs (d :: e :: es) / 10 = ofDigs (e :: es) := by
          show (d + 10 * ofDigs (e :: es)) / 10 = ofDigs (e :: es)
          omega
        rw [hmod, hdiv,
          ih f (fun x hx => hdig x (List.mem_cons_of_mem d hx)) hlast2
            (by simp only [List.length_cons] at hlen ⊢; omega)]

theorem isDecDigit_bounds (c : Char) (h : isDecDigit c = true) :
    48 ≤ c.toNat ∧ c.toNat ≤ 57 := by
  simpa [isDecDigit] using h

theorem decDigitChar_digitVal (c : Char) (h : isDecDigit c = true) :
    decDigitChar (digitVal c) = c := by
  obtain ⟨h1, h2⟩ := isDecDigit_bounds c h
  unfold decDigitChar digitVal
  rw [show 48 + (c.toNat - 48) = c.toNat by omega]
  exact Char.ofNat_toNat c

theorem digitVal_lt (c : Char) (h : isDecDigit c = true) : digitVal c < 10 := by
  obtain ⟨h1, h2⟩ := isDecDigit_bounds c h
  unfold digitVal
  omega

theorem digitVal_eq_zero (c : Char) (h : isDecDigit c = true)
    (h0 : digitVal c = 0) : c = '0' := by
  obtain ⟨h1, h2⟩ := isDecDigit_bounds c h
  have ht : c.toNat = 48 := by
    unfold digitVal at h0
    omega
  have h3 := Char.ofNat_toNat c
  rw [ht] at h3
  rw [show Char.ofNat 48 = '0' from rfl] at h3
  exact h3.symm

theorem natDecChars_parseOctet (cs : List Char) (v : ℕ)
    (h : parseOctet cs = some v) : natDecChars v = cs := by
  unfold parseOctet at h
  split_ifs at h with h1 h2 h3 h4
  simp at h
  have hall : ∀ c ∈ cs, isDecDigit c = true :=
    fun c hc => List.all_eq_true.mp h2 c hc
  have hv : v = ofDigs ((cs.map digitVal).reverse) := by
    rw [← h.2]
    exact bigEndVal_eq cs
  by_cases hv0 : v = 0
  · subst hv0
    have hzero : ∀ c ∈ cs, c = '0' := by
      intro c hc
      refine digitVal_eq_zero c (hall c hc) ?_
      refine ofDigs_eq_zero _ hv.symm _ ?_
      rw [List.mem_reverse, List.mem_map]
      exact ⟨c, hc, rfl⟩
    cases cs with
    | nil => exact absurd rfl h1
    | cons c0 cs2 =>
      cases cs2 with
      | nil =>
        rw [hzero c0 (by simp)]
        rfl
      | cons c1 cs3 =>
        exfalso
        apply h4
        refine ⟨by simp only [List.length_cons]; omega, ?_⟩
        rw [hzero c0 (by simp)]
        rfl
  · have hne : (cs.map digitVal).reverse ≠ [] := by
      cases cs with
      | nil => exact absurd rfl h1
      | cons c0 cs2 => simp
    have hlast : ((cs.map digitVal).reverse).getLast? ≠ some 0 := by
      rw [List.getLast?_reverse, List.head?_map]
      cases cs with
      | nil => exact absurd rfl h1
      | cons c0 cs2 =>
        simp only [List.head?_cons, Option.map_some']
        intro hsome
        have hd0 : digitVal c0 = 0 := by
          injection hsome
        have hc0 : c0 = '0' := digitVal_eq_zero c0 (hall c0 (by simp)) hd0
        cases cs2 with
        | nil =>
          apply hv0
          rw [hv, hc0]
          rfl
        | cons c1 cs3 =>
          apply h4
          refine ⟨by simp only [List.length_cons]; omega, ?_⟩
          rw [hc0]
          rfl
    have hdig : ∀ d ∈ (cs.map digitVal).reverse, d < 10 := by
      intro d hd
      rw [List.mem_reverse, List.mem_map] at hd
      obtain ⟨c, hc, rfl⟩ := hd
      exact digitVal_lt c (hall c hc)
    have hlen : ((cs.map digitVal).reverse).length ≤ v := by
      rw [hv]
      exact (ofDigs_pos_and_le _ hne hlast).2
    have hdd : decDigitsAux v v = (cs.map digitVal).reverse := by
      nth_rewrite 2 [hv]
      exact decDigitsAux_ofDigs _ v hdig hlast hlen
    unfold natDecChars
    rw [if_neg hv0, hdd, ← List.map_reverse, List.reverse_reverse,
      List.map_map]
    have : cs.map (decDigitChar ∘ digitVal) = cs.map id :=
      List.map_congr_left (fun c hc => decDigitChar_digitVal c (hall c hc))
    rw [this, List.map_id]

theorem splitOnChar_ne_nil (sep : Char) : ∀ cs : List Char,
    splitOnChar sep cs ≠ [] := by
  intro cs
  induction cs with
  | nil => simp [splitOnChar]
  | cons c rest ih =>
    unfold splitOnChar
    by_cases hc : c = sep
    · rw [if_pos hc]
      simp
    · rw [if_neg hc]
      cases hr : splitOnChar sep rest with
      | nil => exact absurd hr ih
      | cons g gs => simp

theorem joinSep_splitOnChar (sep : Char) : ∀ cs : List Char,
    joinSep sep (splitOnChar sep cs) = cs := by
  intro cs
  induction cs with
  | nil => rfl
  | cons c rest ih =>
    unfold splitOnChar
    by_cases hc : c = sep
    · rw [if_pos hc]
      cases hr : splitOnChar sep rest with
      | nil => exact absurd hr (splitOnChar_ne_nil sep rest)
      | cons g gs =>
        show sep :: joinSep sep (g :: gs) = c :: rest
        have h2 : joinSep sep (g :: gs) = rest := by
          rw [← hr]
          exact ih
        rw [h2, hc]
    · rw [if_neg hc]
      cases hr : splitOnChar sep rest with
      | nil => exact absurd hr (splitOnChar_ne_nil sep rest)
      | cons g gs =>
        rw [hr] at ih
        cases gs with
        | nil =>
          show c :: g = c :: rest
          have h2 : g = rest := ih
          rw [h2]
        | cons g2 gs2 =>
          show (c :: g) ++ sep :: joinSep sep (g2 :: gs2) = c :: rest
          have h2 : g ++ sep :: joinSep sep (g2 :: gs2) = rest := ih
          simp only [List.cons_append]
          rw [h2]

theorem format4_parse4core (cs : List Char) (a b c d : ℕ)
    (h : parse4core cs = some (a, b, c, d)) : format4 a b c d = cs := by
  unfold parse4core at h
  cases hsp : splitOnChar '.' cs with
  | nil => rw [hsp] at h; simp at h
  | cons g1 r1 =>
    cases r1 with
    | nil => rw [hsp] at h; simp at h
    | cons g2 r2 =>
      cases r2 with
      | nil => rw [hsp] at h; simp at h
      | cons g3 r3 =>
        cases r3 with
        | nil => rw [hsp] at h; simp at h
        | cons g4 r4 =>
          cases r4 with
          | cons g5 r5 => rw [hsp] at h; simp at h
          | nil =>
            rw [hsp] at h
            simp only [] at h
            cases ho1 : parseOctet g1 with
            | none => rw [ho1] at h; simp at h
            | some v1 =>
              cases ho2 : parseOctet g2 with
              | none => rw [ho1, ho2] at h; simp at h
              | some v2 =>
                cases ho3 : parseOctet g3 with
                | none => rw [ho1, ho2, ho3] at h; simp at h
                | some v3 =>
                  cases ho4 : parseOctet g4 with
                  | none => rw [ho1, ho2, ho3, ho4] at h; simp at h
                  | some v4 =>
                    rw [ho1, ho2, ho3, ho4] at h
                    simp only [Option.some.injEq, Prod.mk.injEq] at h
                    obtain ⟨rfl, rfl, rfl, rfl⟩ := h
                    have e1 := natDecChars_parseOctet g1 v1 ho1
                    have e2 := natDecChars_parseOctet g2 v2 ho2
                    have e3 := natDecChars_parseOctet g3 v3 ho3
                    have e4 := natDecChars_parseOctet g4 v4 ho4
                    have hj : format4 v1 v2 v3 v4
                        = joinSep '.' [natDecChars v1, natDecChars v2,
                            natDecChars v3, natDecChars v4] := rfl
                    rw [hj, e1, e2, e3, e4, ← hsp]
                    exact joinSep_splitOnChar '.' cs

theorem format4_parse4 (s : String) (a b c d : ℕ)
    (h : parse4 s = some (a, b, c, d)) : String.mk (format4 a b c d) = s := by
  rw [format4_parse4core s.toList a b c d h]
  cases s
  rfl

/-! ## Lemmas about `get_addr` on numeric literals -/

theorem get_addr_inet_parse4 (resolver : String → Int → Except AddrErr SocketAddr)
    (host : String) (a b c d : ℕ) (hp : parse4 host = some (a, b, c, d)) :
    get_addr resolver host AF_INET = .ok (.V4 a b c d 0) := by
  unfold get_addr
  by_cases h0 : host = ""
  · rw [h0] at hp
    rw [(by decide : parse4 "" = (none : Option (ℕ × ℕ × ℕ × ℕ)))] at hp
    cases hp
  rw [if_neg h0]
  by_cases hb1 : host = "255.255.255.255"
  · rw [if_pos (Or.inl hb1), if_pos (Or.inl rfl)]
    rw [hb1] at hp
    have hbv : parse4 "255.255.255.255" = some (255, 255, 255, 255) := by decide
    rw [hbv] at hp
    simp only [Option.some.injEq, Prod.mk.injEq] at hp
    obtain ⟨rfl, rfl, rfl, rfl⟩ := hp
    rfl
  by_cases hb2 : host = "<broadcast>"
  · rw [hb2] at hp
    rw [(by decide : parse4 "<broadcast>" = (none : Option (ℕ × ℕ × ℕ × ℕ)))] at hp
    cases hp
  rw [if_neg (by rintro (hh | hh) <;> [exact hb1 hh; exact hb2 hh])]
  rw [if_pos (Or.inl rfl), hp]

theorem get_addr_inet6_resolver (resolver : String → Int → Except AddrErr SocketAddr)
    (host : String) (sa : SocketAddr)
    (hne : host ≠ "") (hb1 : host ≠ "255.255.255.255") (hb2 : host ≠ "<broadcast>")
    (hres : resolver host AF_INET6 = .ok sa) :
    get_addr resolver host AF_INET6 = .ok sa := by
  unfold get_addr
  rw [if_neg hne,
    if_neg (by rintro (hh | hh) <;> [exact hb1 hh; exact hb2 hh]),
    if_neg (by decide : ¬ (AF_INET6 = AF_INET ∨ AF_INET6 = AF_UNSPEC))]
  rw [if_neg (fun hcontra =>
    (by decide : ¬ (AF_INET6 = AF_INET ∨ AF_INET6 = AF_UNSPEC)) hcontra.1)]
  exact hres

/-- C7 counterexample: the IPv6 host `0:0:0:0:0:0:0:1` is a literal numeric
address with all fields in range, yet decoding its encoding yields the
canonical rendering `::1`, not the original host string: decode is not the
inverse of encode on this input.  (The resolver models the numeric
resolution the source reaches for `AF_INET6` literals, since `get_addr`
only numeric-parses under `AF_INET`.) -/
theorem c7_counterexample :
    extract_address AF_INET6
        (fun n _ => match parse6 n with
          | some segs => .ok (.V6 segs 0 0 0)
          | none => .error ⟨.osError, "name resolution failed"⟩)
        (.pyTuple [.pyStr "0:0:0:0:0:0:0:1", .pyInt 80, .pyInt 0, .pyInt 0])
        "connect"
      = .ok (.inet (.V6 [0, 0, 0, 0, 0, 0, 0, 1] 80 0 0))
    ∧ get_addr_tuple (.inet (.V6 [0, 0, 0, 0, 0, 0, 0, 1] 80 0 0))
      = .pyTuple [.pyStr "::1", .pyInt 80, .pyInt 0, .pyInt 0]
    ∧ ("::1" : String) ≠ "0:0:0:0:0:0:0:1" := by
  refine ⟨rfl, rfl, by decide⟩

/-- C7 amended: decode inverts encode for literal numeric addresses whose
textual form is the one the formatter produces: (A) IPv4 literals accepted
by the strict dotted-quad parser round-trip exactly (the strict parser only
accepts canonical text); (B) IPv6 literals round-trip when the host equals
the formatter output for its parse and numeric resolution returns the
parsed address (a non-canonical literal instead decodes to its canonical
rendering, see the counterexample); (C) NUL-free string paths within the
`sun_path` length limit round-trip. -/
theorem c7_roundtrip (resolver : String → Int → Except AddrErr SocketAddr)
    (caller : String) :
    (∀ (host : String) (port : Int) (a b c d : ℕ),
        parse4 host = some (a, b, c, d) → 0 ≤ port → port ≤ 65535 →
        extract_address AF_INET resolver
            (.pyTuple [.pyStr host, .pyInt port]) caller
          = .ok (.inet (.V4 a b c d port.toNat))
        ∧ get_addr_tuple (.inet (.V4 a b c d port.toNat))
          = .pyTuple [.pyStr host, .pyInt port])
    ∧ (∀ (host : String) (port fi si : Int) (segs : List ℕ),
        parse6 host = some segs → format6 segs = host →
        resolver host AF_INET6 = .ok (.V6 segs 0 0 0) →
        0 ≤ port → port ≤ 65535 → 0 ≤ fi → fi ≤ 1048575 →
        0 ≤ si → si ≤ 4294967295 →
        extract_address AF_INET6 resolver
            (.pyTuple [.pyStr host, .pyInt port, .pyInt fi, .pyInt si]) caller
          = .ok (.inet (.V6 segs port.toNat fi.toNat si.toNat))
        ∧ get_addr_tuple (.inet (.V6 segs port.toNat fi.toNat si.toNat))
          = .pyTuple [.pyStr host, .pyInt port, .pyInt fi, .pyInt si])
    ∧ (∀ path : String,
        path.toList.contains (Char.ofNat 0) = false →
        path.utf8ByteSize < SUN_PATH_LEN →
        extract_address AF_UNIX resolver (.pyStr path) caller
          = .ok (.unixPath path)
        ∧ get_addr_tuple (.unixPath path) = .pyStr path) := by
  refine ⟨?_, ?_, ?_⟩
  · intro host port a b c d hp h0 h1
    constructor
    · unfold extract_address
      rw [if_neg (by decide), if_pos rfl]
      simp only []
      rw [if_neg (by simp)]
      rw [Address_from_tuple_eval host port _ h0 h1]
      dsimp only [Bind.bind, Except.bind]
      rw [get_addr_inet_parse4 resolver host a b c d hp]
    · show PyVal.pyTuple [.pyStr (String.mk (format4 a b c d)),
          .pyInt (port.toNat : Int)] = .pyTuple [.pyStr host, .pyInt port]
      rw [format4_parse4 host a b c d hp, Int.toNat_of_nonneg h0]
  · intro host port fi si segs hp6 hfmt hres h0 h1 hf0 hf1 hs0 hs1
    have hne : host ≠ "" := by
      intro hh
      rw [hh, (by decide : parse6 "" = (none : Option (List ℕ)))] at hp6
      cases hp6
    have hb1 : host ≠ "255.255.255.255" := by
      intro hh
      rw [hh,
        (by decide : parse6 "255.255.255.255" = (none : Option (List ℕ)))] at hp6
      cases hp6
    have hb2 : host ≠ "<broadcast>" := by
      intro hh
      rw [hh,
        (by decide : parse6 "<broadcast>" = (none : Option (List ℕ)))] at hp6
      cases hp6
    constructor
    · unfold extract_address
      rw [if_neg (by decide), if_neg (by decide), if_pos rfl]
      simp only []
      rw [if_pos (by simp)]
      rw [Address_from_tuple_ipv6_eval4 host port fi si h0 h1 hf0 hf1 hs0 hs1]
      dsimp only [Bind.bind, Except.bind]
      rw [get_addr_inet6_resolver resolver host (.V6 segs 0 0 0) hne hb1 hb2 hres]
    · show PyVal.pyTuple [.pyStr (format6 segs), .pyInt (port.toNat : Int),
          .pyInt (fi.toNat : Int), .pyInt (si.toNat : Int)]
        = .pyTuple [.pyStr host, .pyInt port, .pyInt fi, .pyInt si]
      rw [hfmt, Int.toNat_of_nonneg h0, Int.toNat_of_nonneg hf0,
        Int.toNat_of_nonneg hs0]
  · intro path hnul hlen
    constructor
    · unfold extract_address
      rw [if_pos rfl]
      simp only []
      unfold sockaddr_unix
      rw [if_neg (by rw [hnul]; exact Bool.false_ne_true),
        if_neg (by unfold SUN_PATH_LEN at hlen ⊢; omega)]
    · rfl

/-- Witness for C7: concrete IPv4, canonical IPv6 and unix-path round
trips. -/
theorem c7_roundtrip_witness :
    extract_address AF_INET
        (fun n _ => match parse6 n with
          | some segs => .ok (.V6 segs 0 0 0)
          | none => .error ⟨.osError, "name resolution failed"⟩)
        (.pyTuple [.pyStr "127.0.0.1", .pyInt 80]) "bind"
      = .ok (.inet (.V4 127 0 0 1 (Int.toNat 80)))
    ∧ get_addr_tuple (.inet (.V4 127 0 0 1 (Int.toNat 80)))
      = .pyTuple [.pyStr "127.0.0.1", .pyInt 80]
    ∧ extract_address AF_INET6
        (fun n _ => match parse6 n with
          | some segs => .ok (.V6 segs 0 0 0)
          | none => .error ⟨.osError, "name resolution failed"⟩)
        (.pyTuple [.pyStr "::1", .pyInt 80, .pyInt 9, .pyInt 4]) "bind"
      = .ok (.inet (.V6 [0, 0, 0, 0, 0, 0, 0, 1] (Int.toNat 80) (Int.toNat 9)
          (Int.toNat 4)))
    ∧ get_addr_tuple (.inet (.V6 [0, 0, 0, 0, 0, 0, 0, 1] (Int.toNat 80)
          (Int.toNat 9) (Int.toNat 4)))
      = .pyTuple [.pyStr "::1", .pyInt 80, .pyInt 9, .pyInt 4]
    ∧ extract_address AF_UNIX
        (fun n _ => match parse6 n with
          | some segs => .ok (.V6 segs 0 0 0)
          | none => .error ⟨.osError, "name resolution failed"⟩)
        (.pyStr "/tmp/sock") "bind"
      = .ok (.unixPath "/tmp/sock")
    ∧ get_addr_tuple (.unixPath "/tmp/sock") = .pyStr "/tmp/sock" :=
  ⟨((c7_roundtrip (fun n _ => match parse6 n with
        | some segs => .ok (.V6 segs 0 0 0)
        | none => .error ⟨.osError, "name resolution failed"⟩) "bind").1
      "127.0.0.1" 80 127 0 0 1 rfl (by decide) (by decide)).1,
   ((c7_roundtrip (fun n _ => match parse6 n with
        | some segs => .ok (.V6 segs 0 0 0)
        | none => .error ⟨.osError, "name resolution failed"⟩) "bind").1
      "127.0.0.1" 80 127 0 0 1 rfl (by decide) (by decide)).2,
   ((c7_roundtrip (fun n _ => match parse6 n with
        | some segs => .ok (.V6 segs 0 0 0)
        | none => .error ⟨.osError, "name resolution failed"⟩) "bind").2.1
      "::1" 80 9 4 [0, 0, 0, 0, 0, 0, 0, 1] rfl (by decide) rfl (by decide)
      (by decide) (by decide) (by decide) (by decide) (by decide)).1,
   ((c7_roundtrip (fun n _ => match parse6 n with
        | some segs => .ok (.V6 segs 0 0 0)
        | none => .error ⟨.osError, "name resolution failed"⟩) "bind").2.1
      "::1" 80 9 4 [0, 0, 0, 0, 0, 0, 0, 1] rfl (by decide) rfl (by decide)
      (by decide) (by decide) (by decide) (by decide) (by decide)).2,
   ((c7_roundtrip (fun n _ => match parse6 n with
        | some segs => .ok (.V6 segs 0 0 0)
        | none => .error ⟨.osError, "name resolution failed"⟩) "bind").2.2
      "/tmp/sock" rfl (by decide)).1,
   ((c7_roundtrip (fun n _ => match parse6 n with
        | some segs => .ok (.V6 segs 0 0 0)
        | none => .error ⟨.osError, "name resolution failed"⟩) "bind").2.2
      "/tmp/sock" rfl (by decide)).2⟩

end Socket
